import Mathlib

/-!
Shallow embedding of the transport-bot repository (src/bot, src/services)
in Lean 4, used to check the natural-language specification against the code.

Conventions of the embedding:
* Python strings are Lean `String`s; `str.lower()`/`str.upper()` are modelled
  for the alphabets the program uses (ASCII and Cyrillic), `str.strip()` for
  ASCII whitespace.
* Python `float` values are modelled exactly: a parsed numeric literal becomes
  a rational number (no IEEE rounding), and the special values produced by
  `float("inf")`, `float("-inf")`, `float("nan")` are explicit constructors.
* The SQLite database is modelled as an explicit state record `Db`; every
  write method of `services/database.py` becomes a state transformer, and a
  method that runs inside one transaction becomes a single Lean function
  application (the atomic step).
* Python exceptions that the handlers can raise are modelled by
  `Except PyErr`; a raised error carries the text of `str(e)`.
-/

set_option maxHeartbeats 1000000

namespace TransportBot

/-! ## Python string primitives -/

/-- ASCII whitespace characters stripped by `str.strip()` / `float()`.
(Unicode-only whitespace is outside the modelled alphabet.) -/
def isPyWs (c : Char) : Bool :=
  c = ' ' || c = '\t' || c = '\n' || c = '\r' || c = '\x0b' || c = '\x0c'

/-- `str.strip()` restricted to ASCII whitespace. -/
def pyStrip (s : String) : String :=
  String.mk (((s.data.dropWhile isPyWs).reverse.dropWhile isPyWs).reverse)

/-- `str.lower()` on the alphabets the program uses: ASCII `A`-`Z` and
Cyrillic `А`-`Я` map down by 0x20, `Ё` maps to `ё`; other characters are
unchanged. -/
def pyLowerChar (c : Char) : Char :=
  if 'A' ≤ c ∧ c ≤ 'Z' then Char.ofNat (c.toNat + 32)
  else if 'А' ≤ c ∧ c ≤ 'Я' then Char.ofNat (c.toNat + 32)
  else if c = 'Ё' then 'ё'
  else c

/-- `str.upper()` on the same alphabets. -/
def pyUpperChar (c : Char) : Char :=
  if 'a' ≤ c ∧ c ≤ 'z' then Char.ofNat (c.toNat - 32)
  else if 'а' ≤ c ∧ c ≤ 'я' then Char.ofNat (c.toNat - 32)
  else if c = 'ё' then 'Ё'
  else c

def pyLower (s : String) : String := String.mk (s.data.map pyLowerChar)

def pyUpper (s : String) : String := String.mk (s.data.map pyUpperChar)

def isAsciiDigit (c : Char) : Bool := '0' ≤ c ∧ c ≤ '9'

/-- Python truthiness of an optional string (`None` and `""` are falsy). -/
def textFalsy : Option String → Bool
  | none => true
  | some s => s = ""

/-! ## The Python `float` model

`bot/validators.py` feeds user text to `float(...)`.  A parse result is either
an exact rational (finite literals, no IEEE rounding) or one of the special
values `inf`, `-inf`, `nan`. -/

inductive PyVal where
  | fin (q : ℚ)
  | inf
  | ninf
  | nan
  deriving DecidableEq, Repr

/-- Python `x < 0` on a float (IEEE semantics: `nan < 0` is `False`). -/
def PyVal.ltZero : PyVal → Bool
  | .fin q => q < 0
  | .inf => false
  | .ninf => true
  | .nan => false

/-- Python float subtraction, for the values that can arise in the engine
(a special value minus a finite value, or two finite values). -/
def PyVal.sub : PyVal → PyVal → PyVal
  | .fin a, .fin b => .fin (a - b)
  | .fin _, .inf => .ninf
  | .fin _, .ninf => .inf
  | .inf, .fin _ => .inf
  | .ninf, .fin _ => .ninf
  | .inf, .ninf => .inf
  | .ninf, .inf => .ninf
  | .inf, .inf => .nan
  | .ninf, .ninf => .nan
  | .nan, _ => .nan
  | _, .nan => .nan

/-- Python float addition (used by the SQL `SUM` aggregate model). -/
def PyVal.add : PyVal → PyVal → PyVal
  | .fin a, .fin b => .fin (a + b)
  | .fin _, .inf => .inf
  | .fin _, .ninf => .ninf
  | .inf, .fin _ => .inf
  | .ninf, .fin _ => .ninf
  | .inf, .inf => .inf
  | .ninf, .ninf => .ninf
  | .inf, .ninf => .nan
  | .ninf, .inf => .nan
  | .nan, _ => .nan
  | _, .nan => .nan

/-- Division of a float by a positive integer (the `AVG` aggregate). -/
def PyVal.divNat (v : PyVal) (n : Nat) : PyVal :=
  match v with
  | .fin q => .fin (q / (n : ℚ))
  | .inf => .inf
  | .ninf => .ninf
  | .nan => .nan

def digitsToNat (l : List Char) : Nat :=
  l.foldl (fun a c => a * 10 + (c.toNat - 48)) 0

/-- CPython underscore rule for numeric literals: every `_` must sit between
two digits. -/
def underscoresOk : List Char → Bool
  | [] => true
  | [c] => c ≠ '_'
  | c :: d :: rest =>
      if c = '_' then false
      else underscoresOkAux c (d :: rest)
where
  underscoresOkAux : Char → List Char → Bool
  | _, [] => true
  | prev, c :: rest =>
      if c = '_' then
        isAsciiDigit prev &&
          (match rest with
           | [] => false
           | d :: _ => isAsciiDigit d) &&
          underscoresOkAux c rest
      else underscoresOkAux c rest

/-- Parse the mantissa/exponent part of a float literal:
`digits [ "." digits ] [ ("e"|"E") [sign] digits ]` with a non-empty mantissa.
The value is exact (`m × 10^e` as a rational). -/
def parseDecimalPart (sign : Int) (cs : List Char) : Option PyVal :=
  let ip := cs.takeWhile isAsciiDigit
  let r1 := cs.dropWhile isAsciiDigit
  let fpr : List Char × List Char :=
    match r1 with
    | '.' :: t => (t.takeWhile isAsciiDigit, t.dropWhile isAsciiDigit)
    | _ => ([], r1)
  let fp := fpr.1
  let r2 := fpr.2
  if ip = [] ∧ fp = [] then none
  else
    let mant : ℚ := ((digitsToNat ip * 10 ^ fp.length + digitsToNat fp : ℤ) : ℚ) /
      ((10 : ℚ) ^ fp.length)
    match r2 with
    | [] => some (.fin (sign * mant))
    | e :: t =>
        if e = 'e' ∨ e = 'E' then
          let est : Int × List Char :=
            match t with
            | '+' :: u => (1, u)
            | '-' :: u => (-1, u)
            | u => (1, u)
          let ed := est.2.takeWhile isAsciiDigit
          let r3 := est.2.dropWhile isAsciiDigit
          if ed = [] ∨ r3 ≠ [] then none
          else some (.fin (sign * mant * (10 : ℚ) ^ (est.1 * (digitsToNat ed : ℤ))))
        else none

/-- The model of CPython `float(s)`: strip whitespace, optional sign, then
either the words `inf` / `infinity` / `nan` (case-insensitive) or a decimal
literal (with CPython's underscore rule). Returns `none` where `float` raises
`ValueError`. -/
def parseFloat (s : String) : Option PyVal :=
  let cs := (s.data.dropWhile isPyWs).reverse.dropWhile isPyWs |>.reverse
  let sgncs : Int × List Char :=
    match cs with
    | '+' :: r => (1, r)
    | '-' :: r => (-1, r)
    | r => (1, r)
  let sign := sgncs.1
  let body := sgncs.2
  let low := body.map pyLowerChar
  if low = "inf".data ∨ low = "infinity".data then
    some (if sign = 1 then .inf else .ninf)
  else if low = "nan".data then some .nan
  else if underscoresOk body then
    parseDecimalPart sign (body.filter (· ≠ '_'))
  else none

/-! ## Validators (`bot/validators.py`) -/

def nameCharOk (c : Char) : Bool :=
  ('а' ≤ c ∧ c ≤ 'я') || ('А' ≤ c ∧ c ≤ 'Я') ||
  ('a' ≤ c ∧ c ≤ 'z') || ('A' ≤ c ∧ c ≤ 'Z') || isPyWs c || c = '-'

def truckCharOk (c : Char) : Bool :=
  ('А' ≤ c ∧ c ≤ 'Я') || ('A' ≤ c ∧ c ≤ 'Z') || isAsciiDigit c || isPyWs c || c = '-'

/-- `Validators.validate_name`: on success the second component is the
normalized (stripped) name, on failure the error message. -/
def validate_name (name : String) : Bool × String :=
  let n := pyStrip name
  if n.length < 3 then (false, "Имя должно содержать минимум 3 символа")
  else if n.length > 100 then (false, "Имя слишком длинное (максимум 100 символов)")
  else if ¬ n.data.all nameCharOk then
    (false, "Имя может содержать только буквы, пробелы и дефисы")
  else (true, n)

/-- `Validators.validate_phone`: keep only digits, require 10..15 of them. -/
def validate_phone (phone : String) : Bool × String :=
  let digits := String.mk (phone.data.filter isAsciiDigit)
  if digits.length < 10 then (false, "Номер телефона должен содержать минимум 10 цифр")
  else if digits.length > 15 then (false, "Номер телефона слишком длинный")
  else (true, digits)

/-- `Validators.validate_truck`: strip + uppercase, length 3..20, restricted
alphabet. -/
def validate_truck (truck : String) : Bool × String :=
  let t := pyUpper (pyStrip truck)
  if t.length < 3 then (false, "Номер машины должен содержать минимум 3 символа")
  else if t.length > 20 then (false, "Номер машины слишком длинный")
  else if ¬ t.data.all truckCharOk then
    (false, "Номер может содержать буквы, цифры, пробелы и дефисы")
  else (true, t)

/-- The normalization `validate_weight` applies before calling `float`:
`strip()`, commas to dots, spaces removed. -/
def normalizeWeight (s : String) : String :=
  String.mk (((pyStrip s).data.map (fun c => if c = ',' then '.' else c)).filter (· ≠ ' '))

/-- Result slot of `validate_weight`: Python returns a float, an error
string, or `None` in the same tuple position. -/
inductive WeightRes where
  | val (v : PyVal)
  | msg (m : String)
  | nothing
  deriving DecidableEq, Repr

/-- `Validators.validate_weight`: parse the normalized input with `float`;
`None` on a parse error, a specific message for a negative value, otherwise
the parsed value. -/
def validate_weight (s : String) : Bool × WeightRes :=
  match parseFloat (normalizeWeight s) with
  | none => (false, .nothing)
  | some v =>
      if v.ltZero then (false, .msg "⚠️ Вес не может быть отрицательным")
      else (true, .val v)

/-! ## Scratch records (the session `temp_data` dictionary)

A scratch record is a Python dict with string keys; the values the engine
stores are strings, floats and booleans. -/

inductive JVal where
  | s (v : String)
  | num (v : PyVal)
  | b (v : Bool)
  deriving DecidableEq, Repr

/-- A Python dict with string keys, in insertion order, keys unique. -/
abbrev TD := List (String × JVal)

def tdGet (td : TD) (k : String) : Option JVal :=
  (td.find? (fun p => p.1 = k)).map (·.2)

/-- `dict.get(k, default)`. -/
def tdGetD (td : TD) (k : String) (dflt : JVal) : JVal :=
  (tdGet td k).getD dflt

/-- `dict[k] = v`: replace in place when the key exists, else append. -/
def tdSet (td : TD) (k : String) (v : JVal) : TD :=
  if (td.find? (fun p => p.1 = k)).isSome then
    td.map (fun p => if p.1 = k then (k, v) else p)
  else td ++ [(k, v)]

/-! ## Data model (`services/database.py` schema) -/

structure Driver where
  phone : String
  full_name : String
  personal_phone : String
  truck_number : String
  is_registered : Bool
  deriving DecidableEq, Repr

structure Vehicle where
  truck_number : String
  last_weight : PyVal
  last_weighing_date : Option Nat
  deriving DecidableEq, Repr

structure WRow where
  driver_phone : String
  truck_number : String
  driver_name : String
  client_name : String
  previous_weight : PyVal
  current_weight : PyVal
  weight_difference : PyVal
  station_name : String
  photo_path : String
  created_at : Nat
  deriving DecidableEq, Repr

/-- Content of the `temp_data` TEXT column of `user_states`.
`js td` stands for the string `json.dumps(td)`: it is non-empty and
`json.loads` recovers `td` (the stdlib round-trip contract for dict values).
`bad s` stands for a stored string on which `json.loads` raises
(this includes the empty string). -/
inductive TempCol where
  | js (td : TD)
  | bad (s : String)
  deriving DecidableEq, Repr

structure SRow where
  phone : String
  state : String
  temp : TempCol
  deriving DecidableEq, Repr

/-- The `temp_data` field of the dict `get_user_state` returns: either the
parsed dict, or the raw column string when the column was falsy and was never
parsed. -/
inductive TDOut where
  | parsed (td : TD)
  | raw (s : String)
  deriving DecidableEq, Repr

structure SOut where
  phone : String
  state : String
  temp : TDOut
  deriving DecidableEq, Repr

/-- The SQLite database state. `now` is the clock supplying
`CURRENT_TIMESTAMP`; each committed transaction advances it, so stored
`created_at` stamps grow along the `weighings` list. -/
structure Db where
  drivers : List Driver
  vehicles : List Vehicle
  weighings : List WRow
  sessions : List SRow
  now : Nat
  deriving DecidableEq, Repr

/-! ## Database methods (`services/database.py`) -/

/-- `Database.get_driver`. -/
def get_driver (db : Db) (phone : String) : Option Driver :=
  db.drivers.find? (fun d => d.phone = phone)

/-- `Database.is_driver_registered`. -/
def is_driver_registered (db : Db) (phone : String) : Bool :=
  match get_driver db phone with
  | some d => d.is_registered
  | none => false

/-- `INSERT OR IGNORE INTO vehicles (truck_number) VALUES (?)`:
create the row with the column defaults (`last_weight` 0) when absent. -/
def ensureVehicle (vs : List Vehicle) (tn : String) : List Vehicle :=
  if vs.any (fun v => v.truck_number = tn) then vs
  else vs ++ [{ truck_number := tn, last_weight := .fin 0, last_weighing_date := none }]

/-- `Database.register_driver`: one transaction that upserts the driver row
with `is_registered = 1` and ensures a vehicle row exists.  (The Python
method returns `False` only when the store itself fails; the model has no
store-failure injection, so the success path is the one modelled.) -/
def register_driver (db : Db) (phone full_name personal_phone truck_number : String) : Db :=
  let drivers' :=
    if db.drivers.any (fun d => d.phone = phone) then
      db.drivers.map (fun d =>
        if d.phone = phone then
          { d with full_name := full_name, personal_phone := personal_phone,
                   truck_number := truck_number, is_registered := true }
        else d)
    else
      db.drivers ++ [{ phone := phone, full_name := full_name,
                       personal_phone := personal_phone,
                       truck_number := truck_number, is_registered := true }]
  { db with drivers := drivers', vehicles := ensureVehicle db.vehicles truck_number,
            now := db.now + 1 }

/-- `Database.update_driver_truck`: update the driver row (no-op when the
phone is unknown, as the SQL `UPDATE ... WHERE` is) and ensure the vehicle. -/
def update_driver_truck (db : Db) (phone truck_number : String) : Db :=
  { db with
    drivers := db.drivers.map (fun d =>
      if d.phone = phone then { d with truck_number := truck_number } else d),
    vehicles := ensureVehicle db.vehicles truck_number,
    now := db.now + 1 }

/-- `ORDER BY created_at DESC LIMIT 1`: the row with the greatest timestamp
(on a timestamp tie SQLite's choice is unspecified; this model keeps the
later row of the list). -/
def pickLatest (l : List WRow) : Option WRow :=
  l.foldl (fun acc r =>
    match acc with
    | none => some r
    | some b => if b.created_at ≤ r.created_at then some r else some b) none

/-- `Database.get_last_weight`. -/
def get_last_weight (db : Db) (truck_number : String) : PyVal :=
  match pickLatest (db.weighings.filter (fun r => r.truck_number = truck_number)) with
  | some r => r.current_weight
  | none => .fin 0

/-- The dict `save_weighing` receives (all keys the caller passes). -/
structure SaveData where
  driver_phone : String
  truck_number : String
  driver_name : String
  client_name : String
  current_weight : PyVal
  station_name : String
  photo_path : String
  deriving DecidableEq, Repr

/-- `Database.save_weighing`: one transaction that re-reads the truck's last
weight, computes the difference, inserts the weighing row, and updates the
vehicle's snapshot (`UPDATE ... WHERE truck_number = ?` touches only an
existing vehicle row).  Returns the inserted row. -/
def save_weighing (db : Db) (data : SaveData) : Option WRow × Db :=
  let previous_weight := get_last_weight db data.truck_number
  let weight_difference := data.current_weight.sub previous_weight
  let row : WRow :=
    { driver_phone := data.driver_phone, truck_number := data.truck_number,
      driver_name := data.driver_name, client_name := data.client_name,
      previous_weight := previous_weight, current_weight := data.current_weight,
      weight_difference := weight_difference, station_name := data.station_name,
      photo_path := data.photo_path, created_at := db.now }
  let vehicles' := db.vehicles.map (fun v =>
    if v.truck_number = data.truck_number then
      { v with last_weight := data.current_weight, last_weighing_date := some db.now }
    else v)
  (some row,
   { db with weighings := db.weighings ++ [row], vehicles := vehicles', now := db.now + 1 })

structure DriverStat where
  driver_phone : String
  driver_name : String
  count : Nat
  total : PyVal
  avg : PyVal
  deriving DecidableEq, Repr

structure TruckStat where
  truck_number : String
  count : Nat
  total : PyVal
  avg : PyVal
  deriving DecidableEq, Repr

/-- The dict `get_statistics` returns: its two keys are `by_driver` and
`by_truck`. -/
structure StatsResult where
  by_driver : List DriverStat
  by_truck : List TruckStat
  deriving DecidableEq, Repr

/-- Distinct keys in order of first appearance (`GROUP BY` key set). -/
def firstKeys (l : List String) : List String :=
  l.foldl (fun acc k => if acc.contains k then acc else acc ++ [k]) []

/-- `ORDER BY cnt DESC` via a stable insertion sort on the count. -/
def sortByCountDesc {α : Type} (key : α → Nat) : List α → List α
  | [] => []
  | x :: xs => insertDesc key x (sortByCountDesc key xs)
where
  insertDesc (key : α → Nat) (x : α) : List α → List α
  | [] => [x]
  | y :: ys => if key y ≤ key x ∧ key y ≠ key x then x :: y :: ys
               else y :: insertDesc key x ys

/-- `Database.get_statistics`: grouped count / sum / average over the
weighings, optionally windowed by a start timestamp, grouped by driver and
by truck.  (For a bare column under `GROUP BY` — `driver_name` — SQLite
returns the value of an unspecified row of the group; the model uses the
group's first row.) -/
def get_statistics (db : Db) (start_date : Option Nat) : StatsResult :=
  let rows : List WRow := match start_date with
    | some t0 => db.weighings.filter (fun r => t0 ≤ r.created_at)
    | none => db.weighings
  let by_driver : List DriverStat := (firstKeys (rows.map (·.driver_phone))).map (fun k =>
    let g : List WRow := rows.filter (fun r => r.driver_phone = k)
    let total : PyVal := (g.map (·.current_weight)).foldl PyVal.add (.fin 0)
    { driver_phone := k,
      driver_name := ((g.head?).map (·.driver_name)).getD "",
      count := g.length, total := total, avg := total.divNat g.length })
  let by_truck : List TruckStat := (firstKeys (rows.map (·.truck_number))).map (fun k =>
    let g : List WRow := rows.filter (fun r => r.truck_number = k)
    let total : PyVal := (g.map (·.current_weight)).foldl PyVal.add (.fin 0)
    { truck_number := k, count := g.length, total := total,
      avg := total.divNat g.length })
  { by_driver := sortByCountDesc (·.count) by_driver,
    by_truck := sortByCountDesc (·.count) by_truck }

/-- `Database.get_user_state`: look the session row up by phone; a truthy
`temp_data` column is parsed with `json.loads`, a parse failure is replaced
by the empty dict, a falsy column (the empty string) is returned unparsed. -/
def get_user_state (db : Db) (phone : String) : Option SOut :=
  (db.sessions.find? (fun r => r.phone = phone)).map (fun r =>
    { phone := r.phone, state := r.state,
      temp := match r.temp with
        | .js td => .parsed td
        | .bad s => if s = "" then .raw s else .parsed [] })

/-- `Database.set_user_state`: `INSERT OR REPLACE` keyed by phone; the
scratch dict is stored as `json.dumps(temp_data or {})`. -/
def set_user_state (db : Db) (phone state : String) (temp_data : TD) : Db :=
  let row : SRow := { phone := phone, state := state, temp := .js temp_data }
  let sessions' :=
    if db.sessions.any (fun r => r.phone = phone) then
      db.sessions.map (fun r => if r.phone = phone then row else r)
    else db.sessions ++ [row]
  { db with sessions := sessions', now := db.now + 1 }

/-- `Database.clear_user_state`. -/
def clear_user_state (db : Db) (phone : String) : Db :=
  { db with sessions := db.sessions.filter (fun r => r.phone ≠ phone), now := db.now + 1 }

/-! ## Menu commands and state names (`bot/states.py`) -/

namespace MenuCommands

def MAIN_MENU : String := "0"
def NEW_REPORT : String := "1"
def CHANGE_TRUCK : String := "2"
def RE_REGISTER : String := "3"
def STATISTICS : String := "4"
def SKIP_PHOTO : String := "пропустить"

/-- `MenuCommands.is_exit_command`. -/
def is_exit_command (text : String) : Bool :=
  pyLower text = MAIN_MENU || pyLower text = "меню"

end MenuCommands

/-- The members of the `UserState` enum (`UserState[name]` succeeds exactly
on these names). -/
def validStateNames : List String :=
  ["REGISTRATION_NAME", "REGISTRATION_PHONE", "REGISTRATION_TRUCK",
   "AWAITING_CLIENT", "AWAITING_WEIGHT", "AWAITING_PHOTO",
   "AWAITING_CONFIRMATION", "CHANGING_TRUCK", "AWAITING_STATS_PERIOD"]

/-! ## Messages (`bot/messages.py`) -/

/-- Rendering of a float by `str.format` — the exact `%.0f` display text is
abstracted; no claim constrains it. -/
def fmtPy (v : PyVal) : String :=
  match v with
  | .fin q => toString q
  | .inf => "inf"
  | .ninf => "-inf"
  | .nan => "nan"

/-- `str(value)` of a scratch value inside an f-string. -/
def jvalDisplay (v : JVal) : String :=
  match v with
  | .s s => s
  | .num v => fmtPy v
  | .b b => if b then "True" else "False"

/-- Read a scratch value as a string.  In every reachable state the engine
stores a string under the keys read this way; other shapes map to `""`. -/
def jvalStr (v : JVal) : String :=
  match v with
  | .s s => s
  | _ => ""

/-- Read a scratch value as a float.  In every reachable state the engine
stores a float under the keys read this way; other shapes map to `0`. -/
def jvalNum (v : JVal) : PyVal :=
  match v with
  | .num v => v
  | _ => .fin 0

namespace Messages

def REGISTRATION_START : String :=
  "*Регистрация водителя*\n\nДобро пожаловать! Для начала работы нужно зарегистрироваться.\n\nВведите ваше ФИО (полное имя):"

def registration_name_success (name : String) : String :=
  "ФИО: " ++ name ++ "\n\nТеперь введите ваш личный номер телефона:"

def registration_phone_success : String :=
  "Введите номер вашей машины:"

def registration_complete (name phone truck : String) : String :=
  "*Регистрация завершена!*\n\n*Ваши данные:*\nФИО: " ++ name ++
  "\nТелефон: +" ++ phone ++ "\nМашина: " ++ truck ++
  "\n\nОтправьте *1* для заполнения нового груза\nОтправьте *0* для главного меню"

def main_menu_unregistered : String :=
  "Вы не зарегистрированы в системе.\n\nОтправьте *да* для регистрации"

/-- The registered main menu (the name argument is accepted but unused in the
source f-string, which renders only the truck). -/
def main_menu_registered (_name truck : String) : String :=
  "Ваша машина: " ++ truck ++
  "\n\n*Выберите действие:*\n1 - Новый отчет о взвешивании\n2 - Изменить номер машины\n3 - Переоформить регистрацию\n4 - Статистика\n0 - Главное меню"

def enter_client : String := "Введите имя клиента:"

def enter_weight : String := "Введите вес машины (в кг):"

def enter_photo : String := "Отправьте фотографию показаний весов для подтверждения"

def invalid_number : String := "Пожалуйста, введите число (например: 15000)"

/-- `Messages.confirmation_report`; the wall-clock `datetime.now()` text is
rendered from the model clock. -/
def confirmation_report (data : TD) (now : Nat) : String :=
  "*Подтверждение отчета*\n\nДата: " ++ toString now ++
  "\nТелефон: " ++ jvalDisplay (tdGetD data "driver_phone" (.s "?")) ++
  "\nМашина: " ++ jvalDisplay (tdGetD data "truck_number" (.s "?")) ++
  "\nКлиент: " ++ jvalDisplay (tdGetD data "client_name" (.s "?")) ++
  "\n\nВес новый: " ++ fmtPy (jvalNum (tdGetD data "current_weight" (.num (.fin 0)))) ++
  " кг\nВес предыдущий: " ++ fmtPy (jvalNum (tdGetD data "previous_weight" (.num (.fin 0)))) ++
  " кг\nРазница: " ++ fmtPy (jvalNum (tdGetD data "weight_difference" (.num (.fin 0)))) ++
  " кг\n\nНапишите *да* для сохранения\nНапишите *нет* для отмены"

def report_saved : String :=
  "*Отчет сохранен и отправлен!*\n\nОтправьте *1* для заполнения нового груза\nОтправьте *0* для главного меню"

def report_cancelled : String :=
  "Отчет отменен.\n\nОтправьте *1* для нового отчета\nОтправьте *0* для главного меню"

def truck_updated (truck : String) : String :=
  "Номер машины изменен на *" ++ truck ++ "*\n\nОтправьте *0* для главного меню"

/-- `Messages.error_occurred`: the reply interpolates the stringified
exception. -/
def error_occurred (error : String) : String :=
  "Произошла ошибка: " ++ error ++ "\n\nПожалуйста, попробуйте еще раз или отправьте *0*"

end Messages

/-! ## Handlers (`bot/handlers.py`)

Handlers run inside the `try` of `process_message`; a Python exception is
modelled by `Except PyErr`.  A handler raises only before its first database
write, so an error leaves the database exactly as it was passed in. -/

inductive PyErr where
  | keyError (k : String)
  | other (m : String)
  deriving DecidableEq, Repr

/-- `str(e)` of a raised exception (`str(KeyError(k))` is the quoted key). -/
def pyStr : PyErr → String
  | .keyError k => "\x27" ++ k ++ "\x27"
  | .other m => m

/-- `temp_data[k] = v` when `temp_data` may be the unparsed raw string:
`TypeError` on a string. -/
def TDOut.asDictSet : TDOut → Except PyErr TD
  | .parsed td => .ok td
  | .raw _ => .error (.other "\x27str\x27 object does not support item assignment")

/-- `temp_data.get(...)` when `temp_data` may be the unparsed raw string:
`AttributeError` on a string. -/
def TDOut.asDictGet : TDOut → Except PyErr TD
  | .parsed td => .ok td
  | .raw _ => .error (.other "\x27str\x27 object has no attribute \x27get\x27")

/-- `temp_data[k]` read: `KeyError` on a missing key, `TypeError` on the raw
string. -/
def tdIndex (t : TDOut) (k : String) : Except PyErr JVal :=
  match t with
  | .raw _ => .error (.other "string indices must be integers")
  | .parsed td =>
      match tdGet td k with
      | some v => .ok v
      | none => .error (.keyError k)

instance : DecidableEq (Except PyErr String) := fun a b =>
  match a, b with
  | .ok x, .ok y => if h : x = y then isTrue (by rw [h]) else isFalse (by simp [h])
  | .ok _, .error _ => isFalse (by simp)
  | .error _, .ok _ => isFalse (by simp)
  | .error x, .error y => if h : x = y then isTrue (by rw [h]) else isFalse (by simp [h])

/-- The normalized media record handed to `handle_photo_received`:
the URL extracted from the provider payload, and the outcome of the external
`PhotoService.download_photo` collaborator (left: error message, right:
stored file path). -/
structure MediaInfo where
  url : Option String
  download : Sum String String

/-- `BotHandlers.start_registration`. -/
def start_registration (db : Db) (phone : String) : String × Db :=
  (Messages.REGISTRATION_START, set_user_state db phone "REGISTRATION_NAME" [])

/-- `BotHandlers.handle_registration_name`. -/
def handle_registration_name (db : Db) (phone : String) (text : Option String)
    (temp : TDOut) : Except PyErr (String × Db) :=
  if textFalsy text then .ok ("Пожалуйста, введите ваше ФИО", db)
  else
    let vr := validate_name (text.getD "")
    if ¬ vr.1 then .ok (vr.2, db)
    else do
      let td ← temp.asDictSet
      let td := tdSet td "full_name" (.s vr.2)
      .ok (Messages.registration_name_success vr.2,
           set_user_state db phone "REGISTRATION_PHONE" td)

/-- `BotHandlers.handle_registration_phone`. -/
def handle_registration_phone (db : Db) (phone : String) (text : Option String)
    (temp : TDOut) : Except PyErr (String × Db) :=
  if textFalsy text then .ok ("Пожалуйста, введите ваш номер телефона", db)
  else
    let vr := validate_phone (text.getD "")
    if ¬ vr.1 then .ok (vr.2, db)
    else do
      let td ← temp.asDictSet
      let td := tdSet td "personal_phone" (.s vr.2)
      .ok (Messages.registration_phone_success,
           set_user_state db phone "REGISTRATION_TRUCK" td)

/-- `BotHandlers.handle_registration_truck`: on a valid truck number,
register the driver (upsert + vehicle) and clear the session. -/
def handle_registration_truck (db : Db) (phone : String) (text : Option String)
    (temp : TDOut) : Except PyErr (String × Db) :=
  if textFalsy text then .ok ("Пожалуйста, введите номер машины", db)
  else
    let vr := validate_truck (text.getD "")
    if ¬ vr.1 then .ok (vr.2, db)
    else do
      let td ← temp.asDictGet
      let full_name := jvalStr (tdGetD td "full_name" (.s ""))
      let personal_phone := jvalStr (tdGetD td "personal_phone" (.s ""))
      let db := register_driver db phone full_name personal_phone vr.2
      let db := clear_user_state db phone
      .ok (Messages.registration_complete full_name personal_phone vr.2, db)

/-- `BotHandlers.start_new_report` (called with the registered driver row). -/
def start_new_report (db : Db) (phone : String) (driver : Driver) : String × Db :=
  if driver.truck_number = "" then
    ("Номер машины не установлен. Сначала выполните пункт меню 2.", db)
  else
    let td : TD :=
      [("truck_number", .s driver.truck_number),
       ("driver_name", .s driver.full_name),
       ("driver_phone", .s driver.personal_phone),
       ("previous_weight", .num (get_last_weight db driver.truck_number))]
    (Messages.enter_client, set_user_state db phone "AWAITING_CLIENT" td)

/-- `BotHandlers.handle_client_name`. -/
def handle_client_name (db : Db) (phone : String) (text : Option String)
    (temp : TDOut) : Except PyErr (String × Db) :=
  if textFalsy text ∨ (pyStrip (text.getD "")).length < 2 then
    .ok ("Пожалуйста, введите имя клиента (минимум 2 символа)", db)
  else do
    let td ← temp.asDictSet
    let td := tdSet td "client_name" (.s (pyStrip (text.getD "")))
    .ok (Messages.enter_weight, set_user_state db phone "AWAITING_WEIGHT" td)

/-- `BotHandlers.handle_weight_input`: the two failure kinds surface the two
distinct messages; on success store the weight and the signed difference
against the scratch `previous_weight`. -/
def handle_weight_input (db : Db) (phone : String) (text : Option String)
    (temp : TDOut) : Except PyErr (String × Db) :=
  if textFalsy text then .ok (Messages.enter_weight, db)
  else
    match validate_weight (text.getD "") with
    | (_, .nothing) => .ok (Messages.invalid_number, db)
    | (_, .msg m) => .ok (m, db)
    | (_, .val v) => do
        let td ← temp.asDictSet
        let td := tdSet td "current_weight" (.num v)
        let td := tdSet td "weight_difference"
          (.num (v.sub (jvalNum (tdGetD td "previous_weight" (.num (.fin 0))))))
        .ok (Messages.enter_photo, set_user_state db phone "AWAITING_PHOTO" td)

/-- `BotHandlers.handle_photo_input` (text path of the photo step): only the
skip token advances; anything else re-prompts. -/
def handle_photo_input (db : Db) (phone : String) (text : Option String)
    (temp : TDOut) : Except PyErr (String × Db) :=
  if ¬ textFalsy text ∧ pyLower (text.getD "") = MenuCommands.SKIP_PHOTO then do
    let td ← temp.asDictSet
    let td := tdSet td "photo_received" (.b false)
    let td := tdSet td "photo_path" (.s "")
    let db := set_user_state db phone "AWAITING_CONFIRMATION" td
    .ok (Messages.confirmation_report td db.now, db)
  else .ok (Messages.enter_photo, db)

/-- `BotHandlers.handle_photo_received` (media path of the photo step):
download through the external collaborator; a failure leaves the session at
the photo step with the collaborator's message. -/
def handle_photo_received (db : Db) (phone : String) (temp : TDOut)
    (media : Option MediaInfo) : Except PyErr (String × Db) :=
  let url? : Option String := match media with
    | some m => m.url
    | none => none
  match url? with
  | none => .ok ("Не удалось получить фото. Попробуйте еще раз.", db)
  | some url =>
      match (media.map (·.download)).getD (.inl "") with
      | .inl err => .ok (err, db)
      | .inr filepath => do
          let td ← temp.asDictSet
          let td := tdSet td "photo_received" (.b true)
          let td := tdSet td "photo_path" (.s filepath)
          let td := tdSet td "photo_url" (.s url)
          let db := set_user_state db phone "AWAITING_CONFIRMATION" td
          .ok (Messages.confirmation_report td db.now, db)

def confirmPrompt : String :=
  "Пожалуйста, напишите *да* для сохранения или *нет* для отмены"

/-- `temp_data[k]` with `KeyError` on a missing key. -/
def keyGet (td : TD) (k : String) : Except PyErr JVal :=
  match tdGet td k with
  | some v => .ok v
  | none => .error (.keyError k)

/-- `BotHandlers.handle_confirmation`: `нет` cancels (clears the session),
`да` commits the weighing through `save_weighing` and clears the session,
anything else re-prompts without mutating.  The broadcast to the group is an
external delivery collaborator and is not part of the state model. -/
def handle_confirmation (db : Db) (phone : String) (text : Option String)
    (temp : TDOut) : Except PyErr (String × Db) :=
  if textFalsy text then .ok (confirmPrompt, db)
  else
    let tl := pyLower (text.getD "")
    if tl = "нет" ∨ tl = "no" ∨ tl = "н" then
      .ok (Messages.report_cancelled, clear_user_state db phone)
    else if ¬ (tl = "да" ∨ tl = "yes" ∨ tl = "д" ∨ tl = "y") then
      .ok (confirmPrompt, db)
    else
      match temp with
      | .raw _ => .error (.other "string indices must be integers")
      | .parsed td => do
          let tn ← keyGet td "truck_number"
          let cw ← keyGet td "current_weight"
          let data : SaveData :=
            { driver_phone := phone, truck_number := jvalStr tn,
              driver_name := jvalStr (tdGetD td "driver_name" (.s "")),
              client_name := jvalStr (tdGetD td "client_name" (.s "")),
              current_weight := jvalNum cw,
              photo_path := jvalStr (tdGetD td "photo_path" (.s "")),
              station_name := "" }
          let res := save_weighing db data
          .ok (Messages.report_saved, clear_user_state res.2 phone)

/-- `BotHandlers.handle_change_truck`. -/
def handle_change_truck (db : Db) (phone : String) (text : Option String)
    (_temp : TDOut) : Except PyErr (String × Db) :=
  if textFalsy text then .ok ("Введите новый номер машины:", db)
  else
    let vr := validate_truck (text.getD "")
    if ¬ vr.1 then .ok (vr.2, db)
    else
      let db := update_driver_truck db phone vr.2
      let db := clear_user_state db phone
      .ok (Messages.truck_updated vr.2, db)

/-- `BotHandlers.show_main_menu`: clears the session and shows the menu for
the registration status. -/
def show_main_menu (db : Db) (phone : String) (driver : Option Driver) : String × Db :=
  let db := clear_user_state db phone
  match driver with
  | some d =>
      if d.is_registered then (Messages.main_menu_registered d.full_name d.truck_number, db)
      else (Messages.main_menu_unregistered, db)
  | none => (Messages.main_menu_unregistered, db)

/-- The `state_handlers` dict: the eight states with a handler.
`AWAITING_STATS_PERIOD` has no entry. -/
def handlerFor (state : String) :
    Option (Db → String → Option String → TDOut → Except PyErr (String × Db)) :=
  if state = "REGISTRATION_NAME" then some handle_registration_name
  else if state = "REGISTRATION_PHONE" then some handle_registration_phone
  else if state = "REGISTRATION_TRUCK" then some handle_registration_truck
  else if state = "AWAITING_CLIENT" then some handle_client_name
  else if state = "AWAITING_WEIGHT" then some handle_weight_input
  else if state = "AWAITING_PHOTO" then some handle_photo_input
  else if state = "AWAITING_CONFIRMATION" then some handle_confirmation
  else if state = "CHANGING_TRUCK" then some handle_change_truck
  else none

/-- `BotHandlers.handle_unregistered_user`: route through the registration
track; any other situation restarts it. -/
def handle_unregistered_user (db : Db) (phone : String) (text : Option String)
    (state_data : Option SOut) : Except PyErr (String × Db) :=
  match state_data with
  | none => .ok (start_registration db phone)
  | some sd =>
      if sd.state = "REGISTRATION_NAME" then handle_registration_name db phone text sd.temp
      else if sd.state = "REGISTRATION_PHONE" then handle_registration_phone db phone text sd.temp
      else if sd.state = "REGISTRATION_TRUCK" then handle_registration_truck db phone text sd.temp
      else .ok (start_registration db phone)

/-- The menu-command tail of `process_message` (reached by a registered user
whose input was not consumed by a state handler): `1` starts a report, `2`
starts the truck change, anything else — including the advertised statistics
selection `4` — falls through to the main menu. -/
def pmMenu (db : Db) (phone : String) (text : Option String) (d : Driver) :
    Except PyErr String × Db :=
  if text = some MenuCommands.NEW_REPORT then
    let r := start_new_report db phone d
    (.ok r.1, r.2)
  else if text = some MenuCommands.CHANGE_TRUCK then
    (.ok "Введите новый номер машины:", set_user_state db phone "CHANGING_TRUCK" [])
  else
    let r := show_main_menu db phone (some d)
    (.ok r.1, r.2)

/-- The state-dispatch of `process_message` for a registered user: inside the
`try ... except KeyError` a `KeyError` (from `UserState[...]` or from a
handler) clears the session and falls through to the menu commands; any other
exception propagates to the top-level handler. -/
def pmRegistered (db : Db) (phone : String) (text : Option String)
    (has_media : Bool) (media : Option MediaInfo) (d : Driver)
    (state_data : Option SOut) : Except PyErr String × Db :=
  match state_data with
  | some sd =>
      if validStateNames.contains sd.state then
        if sd.state = "AWAITING_PHOTO" ∧ has_media then
          match handle_photo_received db phone sd.temp media with
          | .ok (r, db') => (.ok r, db')
          | .error (.keyError _) => pmMenu (clear_user_state db phone) phone text d
          | .error e => (.error e, db)
        else
          match handlerFor sd.state with
          | some h =>
              match h db phone text sd.temp with
              | .ok (r, db') => (.ok r, db')
              | .error (.keyError _) => pmMenu (clear_user_state db phone) phone text d
              | .error e => (.error e, db)
          | none => pmMenu db phone text d
      else pmMenu (clear_user_state db phone) phone text d
  | none => pmMenu db phone text d

/-- The body of `BotHandlers.process_message` before the top-level
`except Exception`: exit token first, then the re-register token, then the
unregistered route, then state dispatch, then menu commands. -/
def pmInner (db : Db) (phone : String) (text : Option String)
    (has_media : Bool) (media : Option MediaInfo) : Except PyErr String × Db :=
  let driver := get_driver db phone
  let state_data := get_user_state db phone
  if ¬ textFalsy text ∧ MenuCommands.is_exit_command (text.getD "") then
    let r := show_main_menu db phone driver
    (.ok r.1, r.2)
  else if text = some MenuCommands.RE_REGISTER then
    let db := clear_user_state db phone
    let r := start_registration db phone
    (.ok r.1, r.2)
  else
    match driver with
    | some d =>
        if d.is_registered then pmRegistered db phone text has_media media d state_data
        else
          match handle_unregistered_user db phone text state_data with
          | .ok (r, db') => (.ok r, db')
          | .error e => (.error e, db)
    | none =>
        match handle_unregistered_user db phone text state_data with
        | .ok (r, db') => (.ok r, db')
        | .error e => (.error e, db)

/-- `BotHandlers.process_message`: the top-level `except Exception` converts
any escaped error into `Messages.error_occurred(str(e))`. -/
def process_message (db : Db) (phone : String) (text : Option String)
    (has_media : Bool) (media : Option MediaInfo) : String × Db :=
  match pmInner db phone text has_media media with
  | (.ok r, db') => (r, db')
  | (.error e, db') => (Messages.error_occurred (pyStr e), db')

/-! ## Specification-side definitions

These restate parts of the spec in the claims' words, independently of the
operational definitions above, so the theorems can compare the two. -/

/-- The spec's `previous_weight`: the `current_weight` of the truck's most
recent prior committed weighing, or 0 when the truck has none.  With
chronologically ordered rows the most recent prior row is the last matching
row of the log. -/
def specPrev (db : Db) (truck_number : String) : PyVal :=
  match (db.weighings.filter (fun r => r.truck_number = truck_number)).getLast? with
  | some r => r.current_weight
  | none => .fin 0

/-- Chronological well-formedness of the weighing log: `created_at` stamps
strictly increase along the list (every commit advances the clock). -/
def tsSorted : List Nat → Bool
  | [] => true
  | [_] => true
  | a :: b :: t => decide (a < b) && tsSorted (b :: t)

/-- The claim's acceptance condition for C4: the input denotes a non-negative
real number (its normalized form parses to a finite value `q ≥ 0`). -/
def denotesNonnegReal (s : String) : Prop :=
  ∃ q : ℚ, parseFloat (normalizeWeight s) = some (.fin q) ∧ 0 ≤ q

/-- Substring test (used to exhibit the raw error text inside a reply). -/
def strContains (hay needle : String) : Bool :=
  (hay.data.tails).any (fun t => needle.data.isPrefixOf t)

/-- The source conditions under which each state handler rejects its input
(the branches of `bot/handlers.py` that return an error reply without
touching any store). -/
def rejects (state : String) (text : Option String) : Bool :=
  let t := text.getD ""
  if state = "REGISTRATION_NAME" then textFalsy text || !(validate_name t).1
  else if state = "REGISTRATION_PHONE" then textFalsy text || !(validate_phone t).1
  else if state = "REGISTRATION_TRUCK" then textFalsy text || !(validate_truck t).1
  else if state = "AWAITING_CLIENT" then textFalsy text || decide ((pyStrip t).length < 2)
  else if state = "AWAITING_WEIGHT" then textFalsy text || !(validate_weight t).1
  else if state = "AWAITING_PHOTO" then !(!textFalsy text && pyLower t = MenuCommands.SKIP_PHOTO)
  else if state = "AWAITING_CONFIRMATION" then
    textFalsy text ||
      !(pyLower t = "нет" || pyLower t = "no" || pyLower t = "н" ||
        pyLower t = "да" || pyLower t = "yes" || pyLower t = "д" || pyLower t = "y")
  else if state = "CHANGING_TRUCK" then textFalsy text || !(validate_truck t).1
  else false

/-- The error reply each state handler returns on a rejected input. -/
def rejectReply (state : String) (text : Option String) : String :=
  let t := text.getD ""
  if state = "REGISTRATION_NAME" then
    if textFalsy text then "Пожалуйста, введите ваше ФИО" else (validate_name t).2
  else if state = "REGISTRATION_PHONE" then
    if textFalsy text then "Пожалуйста, введите ваш номер телефона" else (validate_phone t).2
  else if state = "REGISTRATION_TRUCK" then
    if textFalsy text then "Пожалуйста, введите номер машины" else (validate_truck t).2
  else if state = "AWAITING_CLIENT" then "Пожалуйста, введите имя клиента (минимум 2 символа)"
  else if state = "AWAITING_WEIGHT" then
    if textFalsy text then Messages.enter_weight
    else match validate_weight t with
      | (_, .nothing) => Messages.invalid_number
      | (_, .msg m) => m
      | (_, .val _) => ""
  else if state = "AWAITING_PHOTO" then Messages.enter_photo
  else if state = "AWAITING_CONFIRMATION" then confirmPrompt
  else if state = "CHANGING_TRUCK" then
    if textFalsy text then "Введите новый номер машины:" else (validate_truck t).2
  else ""

/-! ## Concrete instances for counterexamples and witnesses -/

def cDriver : Driver :=
  { phone := "u1", full_name := "Иван Петров", personal_phone := "79123456789",
    truck_number := "А123", is_registered := true }

/-- A registered driver with no active session. -/
def cDbMenu : Db :=
  { drivers := [cDriver], vehicles := [{ truck_number := "А123", last_weight := .fin 0, last_weighing_date := none }],
    weighings := [], sessions := [], now := 10 }

/-- An unregistered user whose stored session has a corrupt (empty-string)
`temp_data` column at the truck step. -/
def cDbCorrupt : Db :=
  { drivers := [], vehicles := [], weighings := [],
    sessions := [{ phone := "u2", state := "REGISTRATION_TRUCK", temp := .bad "" }], now := 5 }

/-- A session row whose `temp_data` column holds the empty string. -/
def cDbRawEmpty : Db :=
  { drivers := [], vehicles := [], weighings := [],
    sessions := [{ phone := "u4", state := "AWAITING_CLIENT", temp := .bad "" }], now := 5 }

/-- A session row whose `temp_data` column holds a non-empty non-JSON string. -/
def cDbRawJunk : Db :=
  { drivers := [], vehicles := [], weighings := [],
    sessions := [{ phone := "u4", state := "AWAITING_CLIENT", temp := .bad "xx" }], now := 5 }

/-- A weighing log with two committed rows for truck `T-1`. -/
def cDbWeighings : Db :=
  { drivers := [cDriver],
    vehicles := [{ truck_number := "T-1", last_weight := .fin 70, last_weighing_date := some 2 }],
    weighings :=
      [{ driver_phone := "u1", truck_number := "T-1", driver_name := "Иван Петров",
         client_name := "Acme", previous_weight := .fin 0, current_weight := .fin 50,
         weight_difference := .fin 50, station_name := "", photo_path := "", created_at := 1 },
       { driver_phone := "u1", truck_number := "T-1", driver_name := "Иван Петров",
         client_name := "Acme", previous_weight := .fin 50, current_weight := .fin 70,
         weight_difference := .fin 20, station_name := "", photo_path := "", created_at := 2 }],
    sessions := [], now := 3 }

def cSaveData : SaveData :=
  { driver_phone := "u1", truck_number := "T-1", driver_name := "Иван Петров",
    client_name := "Acme", current_weight := .fin 100, station_name := "", photo_path := "" }

/-- A fresh user at the start of the registration track. -/
def cDbRegStart : Db :=
  { drivers := [], vehicles := [], weighings := [],
    sessions := [{ phone := "u3", state := "REGISTRATION_NAME", temp := .js [] }], now := 0 }

/-- A registered driver in the middle of a report flow with scratch data. -/
def cDbExit : Db :=
  { cDbMenu with
    sessions := [{ phone := "u1", state := "AWAITING_WEIGHT",
                   temp := .js [("client_name", .s "Acme")] }] }

/-! ## Helper lemmas on the store -/

/-- The replace-or-append of `set_user_state` is found again under its key. -/
theorem find?_session_upsert (l : List SRow) (phone : String) (row : SRow)
    (hrow : row.phone = phone) :
    ((if l.any (fun r => r.phone = phone) then
        l.map (fun r => if r.phone = phone then row else r)
      else l ++ [row]).find? (fun r => r.phone = phone)) = some row := by
  induction l with
  | nil => simp [hrow]
  | cons a t ih =>
      by_cases ha : a.phone = phone
      · have hany : (a :: t).any (fun r => r.phone = phone) = true := by simp [ha]
        rw [if_pos hany]
        simp only [List.map_cons, if_pos ha]
        rw [List.find?_cons_of_pos _ (by simp [hrow])]
      · by_cases ht : t.any (fun r => r.phone = phone) = true
        · have hany : (a :: t).any (fun r => r.phone = phone) = true := by
            simp [List.any_cons, ht]
          rw [if_pos hany]
          simp only [List.map_cons, if_neg ha]
          rw [List.find?_cons_of_neg _ (by simp [ha])]
          have h2 := ih
          rw [if_pos ht] at h2
          exact h2
        · have hany : ¬ ((a :: t).any (fun r => r.phone = phone) = true) := by
            simp [List.any_cons, ha]
            simpa using ht
          rw [if_neg hany]
          simp only [List.cons_append]
          rw [List.find?_cons_of_neg _ (by simp [ha])]
          have h2 := ih
          rw [if_neg ht] at h2
          exact h2

theorem sessions_filter_find (l : List SRow) (phone : String) :
    (l.filter (fun r => r.phone ≠ phone)).find? (fun r => r.phone = phone) = none := by
  induction l with
  | nil => rfl
  | cons a t ih =>
      by_cases ha : a.phone = phone
      · simp [List.filter_cons, ha, ih]
      · simp [List.filter_cons, ha, ih]

/-- Reading back a session written by `set_user_state`. -/
theorem get_user_state_set (db : Db) (phone st : String) (td : TD) :
    get_user_state (set_user_state db phone st td) phone =
      some { phone := phone, state := st, temp := .parsed td } := by
  unfold get_user_state set_user_state
  simp only
  rw [find?_session_upsert db.sessions phone _ rfl]
  rfl

theorem get_user_state_clear (db : Db) (phone : String) :
    get_user_state (clear_user_state db phone) phone = none := by
  unfold get_user_state clear_user_state
  simp only
  rw [sessions_filter_find]
  rfl

theorem get_driver_set_user_state (db : Db) (p st : String) (td : TD) (q : String) :
    get_driver (set_user_state db p st td) q = get_driver db q := rfl

theorem get_driver_clear_user_state (db : Db) (p q : String) :
    get_driver (clear_user_state db p) q = get_driver db q := rfl

/-! ## Claim C9 -/

/-- C9: for every user identity, state name and scratch record,
`set_user_state` followed by `get_user_state` for the same identity returns
a record with the same state name and the same scratch record: the
round-trip through the store (SQLite row replace + `json.dumps`/`json.loads`)
is the identity on state and scratch. -/
theorem session_roundtrip (db : Db) (phone st : String) (td : TD) :
    get_user_state (set_user_state db phone st td) phone =
      some { phone := phone, state := st, temp := .parsed td } :=
  get_user_state_set db phone st td

/-! ## Claim C10 -/

/-- C10 counterexample: a stored `temp_data` column holding the empty string
is not valid JSON, yet `get_user_state` returns it unchanged (the falsy
string is never parsed), not an empty scratch dictionary. -/
theorem corrupt_empty_tempdata_stays_raw :
    get_user_state cDbRawEmpty "u4" =
      some { phone := "u4", state := "AWAITING_CLIENT", temp := .raw "" } ∧
    TDOut.raw "" ≠ TDOut.parsed [] := by
  exact ⟨rfl, by decide⟩

/-- C10 (amended): for every session row whose `temp_data` column is a
non-empty string that `json.loads` rejects, `get_user_state` does not raise
and returns the record with an empty scratch dictionary in place of the
corrupt data; only the empty-string column is returned as the raw string. -/
theorem corrupt_tempdata_empty_dict (db : Db) (phone st s : String) (hs : s ≠ "")
    (hrow : db.sessions.find? (fun r => r.phone = phone) =
      some { phone := phone, state := st, temp := .bad s }) :
    get_user_state db phone = some { phone := phone, state := st, temp := .parsed [] } := by
  unfold get_user_state
  rw [hrow]
  simp [hs]

theorem corrupt_tempdata_empty_dict_witness :
    get_user_state cDbRawJunk "u4" =
      some { phone := "u4", state := "AWAITING_CLIENT", temp := .parsed [] } :=
  corrupt_tempdata_empty_dict cDbRawJunk "u4" "AWAITING_CLIENT" "xx" (by decide) rfl

/-! ## Claim C2 -/

/-- C2: `get_statistics` on an empty weighing table returns empty aggregates
for both groupings it produces.  The result dict has exactly the keys
`by_driver` and `by_truck`: the by-client grouping the spec (and the
renderer `Messages.statistics_report`, which reads a `by_client` key) expects
is not produced by `Database.get_statistics`. -/
theorem get_statistics_empty_two_groupings (db : Db) (start_date : Option Nat)
    (h : db.weighings = []) :
    get_statistics db start_date = { by_driver := [], by_truck := [] } := by
  unfold get_statistics
  rw [h]
  cases start_date <;> rfl

theorem get_statistics_empty_two_groupings_witness :
    get_statistics cDbMenu (some 3) = { by_driver := [], by_truck := [] } ∧
    get_statistics cDbMenu none = { by_driver := [], by_truck := [] } :=
  ⟨get_statistics_empty_two_groupings cDbMenu (some 3) rfl,
   get_statistics_empty_two_groupings cDbMenu none rfl⟩

/-! ## Claim C3 -/

/-- C3: the code evaluated at the failing input.  A registered driver with no
active session sends the advertised statistics selection `4`
(`MenuCommands.STATISTICS`): `process_message` starts no statistics flow and
enters no `AWAITING_STATS_PERIOD` state — it falls through to the main menu,
leaving every store unchanged (no session row is created). -/
theorem menu_statistics_selection_falls_back :
    (process_message cDbMenu "u1" (some MenuCommands.STATISTICS) false none).1 =
      Messages.main_menu_registered "Иван Петров" "А123" ∧
    (process_message cDbMenu "u1" (some MenuCommands.STATISTICS) false none).2.sessions = [] ∧
    (process_message cDbMenu "u1" (some MenuCommands.STATISTICS) false none).2.drivers =
      cDbMenu.drivers ∧
    (process_message cDbMenu "u1" (some MenuCommands.STATISTICS) false none).2.weighings = [] := by
  refine ⟨rfl, rfl, rfl, rfl⟩

/-! ## Claim C5 -/

/-- C5: for every user, every stored session (any state, any scratch data)
and every incoming text equal case-insensitively to `0` or the menu word,
`process_message` short-circuits before any state handler or dispatch rule:
the whole effect is `clear_user_state`, the reply is the main menu for the
user's registration status, and no session remains afterwards. -/
theorem exit_command_preempts (db : Db) (phone t : String) (has_media : Bool)
    (media : Option MediaInfo) (h : MenuCommands.is_exit_command t = true) :
    process_message db phone (some t) has_media media =
      ((match get_driver db phone with
        | some d =>
            if d.is_registered then Messages.main_menu_registered d.full_name d.truck_number
            else Messages.main_menu_unregistered
        | none => Messages.main_menu_unregistered),
       clear_user_state db phone) ∧
    get_user_state (process_message db phone (some t) has_media media).2 phone = none := by
  have ht : ¬ t = "" := by
    intro he
    subst he
    exact absurd h (by decide)
  have hmain : process_message db phone (some t) has_media media =
      ((match get_driver db phone with
        | some d =>
            if d.is_registered then Messages.main_menu_registered d.full_name d.truck_number
            else Messages.main_menu_unregistered
        | none => Messages.main_menu_unregistered),
       clear_user_state db phone) := by
    unfold process_message pmInner
    simp only [Option.getD]
    rw [if_pos (by exact ⟨by simp [textFalsy, ht], h⟩)]
    unfold show_main_menu
    cases hd : get_driver db phone with
    | none => simp
    | some d => by_cases hr : d.is_registered = true <;> simp [hr]
  refine ⟨hmain, ?_⟩
  rw [hmain]
  exact get_user_state_clear db phone

theorem exit_command_preempts_witness :
    MenuCommands.is_exit_command "Меню" = true ∧
    (process_message cDbExit "u1" (some "Меню") false none =
      (Messages.main_menu_registered "Иван Петров" "А123", clear_user_state cDbExit "u1") ∧
     get_user_state (process_message cDbExit "u1" (some "Меню") false none).2 "u1" = none) :=
  ⟨by decide, exit_command_preempts cDbExit "u1" "Меню" false none (by decide)⟩

/-! ## Claim C4 -/

/-- C4 counterexample: the input `nan` is accepted by `validate_weight`
(Python's `float("nan")` parses, and `nan < 0` is `False`), yet `nan` does
not denote a non-negative real number — the claimed equivalence fails. -/
theorem validate_weight_accepts_nan :
    (validate_weight "nan").1 = true ∧ ¬ denotesNonnegReal "nan" := by
  refine ⟨by decide, ?_⟩
  rintro ⟨q, hq, -⟩
  have he : parseFloat (normalizeWeight "nan") = some PyVal.nan := by decide
  rw [he] at hq
  exact PyVal.noConfusion (Option.some.inj hq)

/-- C4 (amended): `validate_weight` (after stripping spaces and mapping
commas to dots) succeeds exactly when the normalized input parses under
Python's `float` grammar to a value that is not less than zero — which also
admits the non-real values `nan` and `inf`; when it fails, the
`AWAITING_WEIGHT` handler surfaces the specific `not a number` message on a
parse failure and the validator's specific `negative` message on a negative
value, and the two messages are distinct. -/
theorem validate_weight_amended_spec (s : String) (db : Db) (phone : String)
    (temp : TDOut) (hs : s ≠ "") :
    ((validate_weight s).1 = true ↔
      ∃ v, parseFloat (normalizeWeight s) = some v ∧ v.ltZero = false) ∧
    (parseFloat (normalizeWeight s) = none →
      handle_weight_input db phone (some s) temp = .ok (Messages.invalid_number, db)) ∧
    (∀ v, parseFloat (normalizeWeight s) = some v → v.ltZero = true →
      handle_weight_input db phone (some s) temp =
        .ok ("⚠️ Вес не может быть отрицательным", db)) ∧
    Messages.invalid_number ≠ "⚠️ Вес не может быть отрицательным" := by
  refine ⟨?_, ?_, ?_, by decide⟩
  · constructor
    · intro h1
      unfold validate_weight at h1
      cases hp : parseFloat (normalizeWeight s) with
      | none => rw [hp] at h1; simp at h1
      | some v =>
          rw [hp] at h1
          by_cases hz : v.ltZero = true
          · simp [hz] at h1
          · exact ⟨v, rfl, by simpa using hz⟩
    · rintro ⟨v, hv, hz⟩
      unfold validate_weight
      rw [hv]
      simp [hz]
  · intro hp
    have hvw : validate_weight s = (false, .nothing) := by
      unfold validate_weight
      rw [hp]
    unfold handle_weight_input
    simp only [Option.getD]
    rw [if_neg (by simp [textFalsy, hs]), hvw]
  · intro v hv hz
    have hvw : validate_weight s = (false, .msg "⚠️ Вес не может быть отрицательным") := by
      unfold validate_weight
      rw [hv]
      simp [hz]
    unfold handle_weight_input
    simp only [Option.getD]
    rw [if_neg (by simp [textFalsy, hs]), hvw]

theorem validate_weight_amended_spec_witness :
    "-50" ≠ "" ∧
    (((validate_weight "-50").1 = true ↔
        ∃ v, parseFloat (normalizeWeight "-50") = some v ∧ v.ltZero = false) ∧
     (parseFloat (normalizeWeight "-50") = none →
        handle_weight_input cDbMenu "u1" (some "-50") (.parsed []) =
          .ok (Messages.invalid_number, cDbMenu)) ∧
     (∀ v, parseFloat (normalizeWeight "-50") = some v → v.ltZero = true →
        handle_weight_input cDbMenu "u1" (some "-50") (.parsed []) =
          .ok ("⚠️ Вес не может быть отрицательным", cDbMenu)) ∧
     Messages.invalid_number ≠ "⚠️ Вес не может быть отрицательным") :=
  ⟨by decide, validate_weight_amended_spec "-50" cDbMenu "u1" (.parsed []) (by decide)⟩

/-! ## Claim C6: per-handler rejection lemmas -/

theorem validate_weight_not_false_val (s : String) (v : PyVal) :
    validate_weight s ≠ (false, .val v) := by
  unfold validate_weight
  cases parseFloat (normalizeWeight s) with
  | none => simp
  | some w => by_cases hz : w.ltZero = true <;> simp [hz]

theorem reg_name_reject (db : Db) (phone : String) (text : Option String) (temp : TDOut)
    (h : textFalsy text = true ∨ (validate_name (text.getD "")).1 = false) :
    handle_registration_name db phone text temp =
      .ok ((if textFalsy text then "Пожалуйста, введите ваше ФИО"
            else (validate_name (text.getD "")).2), db) := by
  unfold handle_registration_name
  rcases h with h | h
  · simp [h]
  · by_cases hf : textFalsy text = true
    · simp [hf]
    · simp [hf, h]

theorem reg_phone_reject (db : Db) (phone : String) (text : Option String) (temp : TDOut)
    (h : textFalsy text = true ∨ (validate_phone (text.getD "")).1 = false) :
    handle_registration_phone db phone text temp =
      .ok ((if textFalsy text then "Пожалуйста, введите ваш номер телефона"
            else (validate_phone (text.getD "")).2), db) := by
  unfold handle_registration_phone
  rcases h with h | h
  · simp [h]
  · by_cases hf : textFalsy text = true
    · simp [hf]
    · simp [hf, h]

theorem reg_truck_reject (db : Db) (phone : String) (text : Option String) (temp : TDOut)
    (h : textFalsy text = true ∨ (validate_truck (text.getD "")).1 = false) :
    handle_registration_truck db phone text temp =
      .ok ((if textFalsy text then "Пожалуйста, введите номер машины"
            else (validate_truck (text.getD "")).2), db) := by
  unfold handle_registration_truck
  rcases h with h | h
  · simp [h]
  · by_cases hf : textFalsy text = true
    · simp [hf]
    · simp [hf, h]

theorem client_reject (db : Db) (phone : String) (text : Option String) (temp : TDOut)
    (h : textFalsy text = true ∨ (pyStrip (text.getD "")).length < 2) :
    handle_client_name db phone text temp =
      .ok ("Пожалуйста, введите имя клиента (минимум 2 символа)", db) := by
  unfold handle_client_name
  rcases h with h | h
  · simp [h]
  · rw [if_pos (Or.inr h)]

theorem weight_reject (db : Db) (phone : String) (text : Option String) (temp : TDOut)
    (h : textFalsy text = true ∨ (validate_weight (text.getD "")).1 = false) :
    handle_weight_input db phone text temp =
      .ok ((if textFalsy text then Messages.enter_weight
            else match validate_weight (text.getD "") with
              | (_, .nothing) => Messages.invalid_number
              | (_, .msg m) => m
              | (_, .val _) => ""), db) := by
  unfold handle_weight_input
  rcases h with h | h
  · simp [h]
  · by_cases hf : textFalsy text = true
    · simp [hf]
    · rw [if_neg (by simpa using hf), if_neg (by simpa using hf)]
      rcases hv : validate_weight (text.getD "") with ⟨b, res⟩
      rw [hv] at h
      cases res with
      | nothing => rfl
      | msg m => rfl
      | val v =>
          exfalso
          simp only at h
          subst h
          exact validate_weight_not_false_val (text.getD "") v hv

theorem photo_reject (db : Db) (phone : String) (text : Option String) (temp : TDOut)
    (h : (!textFalsy text && (pyLower (text.getD "") = MenuCommands.SKIP_PHOTO : Bool)) = false) :
    handle_photo_input db phone text temp = .ok (Messages.enter_photo, db) := by
  unfold handle_photo_input
  rw [if_neg]
  intro hc
  rcases hc with ⟨h1, h2⟩
  simp [h2] at h
  exact h1 h

theorem confirmation_reject (db : Db) (phone : String) (text : Option String) (temp : TDOut)
    (h : textFalsy text = true ∨
      (pyLower (text.getD "") ≠ "нет" ∧ pyLower (text.getD "") ≠ "no" ∧
       pyLower (text.getD "") ≠ "н" ∧ pyLower (text.getD "") ≠ "да" ∧
       pyLower (text.getD "") ≠ "yes" ∧ pyLower (text.getD "") ≠ "д" ∧
       pyLower (text.getD "") ≠ "y")) :
    handle_confirmation db phone text temp = .ok (confirmPrompt, db) := by
  unfold handle_confirmation
  rcases h with h | h
  · simp [h]
  · obtain ⟨h1, h2, h3, h4, h5, h6, h7⟩ := h
    by_cases hf : textFalsy text = true
    · simp [hf]
    · rw [if_neg (by simpa using hf)]
      rw [if_neg (by simp [h1, h2, h3])]
      rw [if_pos (by simp [h4, h5, h6, h7])]

theorem change_truck_reject (db : Db) (phone : String) (text : Option String) (temp : TDOut)
    (h : textFalsy text = true ∨ (validate_truck (text.getD "")).1 = false) :
    handle_change_truck db phone text temp =
      .ok ((if textFalsy text then "Введите новый номер машины:"
            else (validate_truck (text.getD "")).2), db) := by
  unfold handle_change_truck
  rcases h with h | h
  · simp [h]
  · by_cases hf : textFalsy text = true
    · simp [hf]
    · simp [hf, h]

/-- C6: for every FSM state that has a handler in `state_handlers` and every
input the handler's validation rejects, the handler returns the state's error
reply and the database — sessions and entity tables alike — unchanged.  The
reply is a function of the state and the text alone, so processing the same
invalid input twice from the same state returns the identical error reply
both times and never mutates the session or entity stores. -/
theorem invalid_input_idempotent (state : String) (db : Db) (phone : String)
    (text : Option String) (temp : TDOut)
    (hdl : Db → String → Option String → TDOut → Except PyErr (String × Db))
    (hfor : handlerFor state = some hdl) (hr : rejects state text = true) :
    hdl db phone text temp = .ok (rejectReply state text, db) := by
  by_cases h1 : state = "REGISTRATION_NAME"
  · subst h1
    rw [show handlerFor "REGISTRATION_NAME" = some handle_registration_name from rfl] at hfor
    have hh : hdl = handle_registration_name := (Option.some.inj hfor).symm
    subst hh
    rw [show rejects "REGISTRATION_NAME" text =
        (textFalsy text || !(validate_name (text.getD "")).1) from rfl] at hr
    rw [show rejectReply "REGISTRATION_NAME" text =
        (if textFalsy text then "Пожалуйста, введите ваше ФИО"
         else (validate_name (text.getD "")).2) from rfl]
    refine reg_name_reject db phone text temp ?_
    rcases Bool.or_eq_true_iff.mp hr with h | h
    · exact Or.inl h
    · exact Or.inr ((Bool.not_eq_true' _ ▸ h))
  by_cases h2 : state = "REGISTRATION_PHONE"
  · subst h2
    rw [show handlerFor "REGISTRATION_PHONE" = some handle_registration_phone from rfl] at hfor
    have hh : hdl = handle_registration_phone := (Option.some.inj hfor).symm
    subst hh
    rw [show rejects "REGISTRATION_PHONE" text =
        (textFalsy text || !(validate_phone (text.getD "")).1) from rfl] at hr
    rw [show rejectReply "REGISTRATION_PHONE" text =
        (if textFalsy text then "Пожалуйста, введите ваш номер телефона"
         else (validate_phone (text.getD "")).2) from rfl]
    refine reg_phone_reject db phone text temp ?_
    rcases Bool.or_eq_true_iff.mp hr with h | h
    · exact Or.inl h
    · exact Or.inr ((Bool.not_eq_true' _ ▸ h))
  by_cases h3 : state = "REGISTRATION_TRUCK"
  · subst h3
    rw [show handlerFor "REGISTRATION_TRUCK" = some handle_registration_truck from rfl] at hfor
    have hh : hdl = handle_registration_truck := (Option.some.inj hfor).symm
    subst hh
    rw [show rejects "REGISTRATION_TRUCK" text =
        (textFalsy text || !(validate_truck (text.getD "")).1) from rfl] at hr
    rw [show rejectReply "REGISTRATION_TRUCK" text =
        (if textFalsy text then "Пожалуйста, введите номер машины"
         else (validate_truck (text.getD "")).2) from rfl]
    refine reg_truck_reject db phone text temp ?_
    rcases Bool.or_eq_true_iff.mp hr with h | h
    · exact Or.inl h
    · exact Or.inr ((Bool.not_eq_true' _ ▸ h))
  by_cases h4 : state = "AWAITING_CLIENT"
  · subst h4
    rw [show handlerFor "AWAITING_CLIENT" = some handle_client_name from rfl] at hfor
    have hh : hdl = handle_client_name := (Option.some.inj hfor).symm
    subst hh
    rw [show rejects "AWAITING_CLIENT" text =
        (textFalsy text || decide ((pyStrip (text.getD "")).length < 2)) from rfl] at hr
    rw [show rejectReply "AWAITING_CLIENT" text =
        "Пожалуйста, введите имя клиента (минимум 2 символа)" from rfl]
    refine client_reject db phone text temp ?_
    rcases Bool.or_eq_true_iff.mp hr with h | h
    · exact Or.inl h
    · exact Or.inr (of_decide_eq_true h)
  by_cases h5 : state = "AWAITING_WEIGHT"
  · subst h5
    rw [show handlerFor "AWAITING_WEIGHT" = some handle_weight_input from rfl] at hfor
    have hh : hdl = handle_weight_input := (Option.some.inj hfor).symm
    subst hh
    rw [show rejects "AWAITING_WEIGHT" text =
        (textFalsy text || !(validate_weight (text.getD "")).1) from rfl] at hr
    rw [show rejectReply "AWAITING_WEIGHT" text =
        (if textFalsy text then Messages.enter_weight
         else match validate_weight (text.getD "") with
           | (_, .nothing) => Messages.invalid_number
           | (_, .msg m) => m
           | (_, .val _) => "") from rfl]
    refine weight_reject db phone text temp ?_
    rcases Bool.or_eq_true_iff.mp hr with h | h
    · exact Or.inl h
    · exact Or.inr ((Bool.not_eq_true' _ ▸ h))
  by_cases h6 : state = "AWAITING_PHOTO"
  · subst h6
    rw [show handlerFor "AWAITING_PHOTO" = some handle_photo_input from rfl] at hfor
    have hh : hdl = handle_photo_input := (Option.some.inj hfor).symm
    subst hh
    rw [show rejects "AWAITING_PHOTO" text =
        !(!textFalsy text && (pyLower (text.getD "") = MenuCommands.SKIP_PHOTO : Bool))
        from rfl] at hr
    rw [show rejectReply "AWAITING_PHOTO" text = Messages.enter_photo from rfl]
    exact photo_reject db phone text temp ((Bool.not_eq_true' _ ▸ hr))
  by_cases h7 : state = "AWAITING_CONFIRMATION"
  · subst h7
    rw [show handlerFor "AWAITING_CONFIRMATION" = some handle_confirmation from rfl] at hfor
    have hh : hdl = handle_confirmation := (Option.some.inj hfor).symm
    subst hh
    rw [show rejects "AWAITING_CONFIRMATION" text =
        (textFalsy text ||
          !(pyLower (text.getD "") = "нет" || pyLower (text.getD "") = "no" ||
            pyLower (text.getD "") = "н" || pyLower (text.getD "") = "да" ||
            pyLower (text.getD "") = "yes" || pyLower (text.getD "") = "д" ||
            pyLower (text.getD "") = "y" : Bool)) from rfl] at hr
    rw [show rejectReply "AWAITING_CONFIRMATION" text = confirmPrompt from rfl]
    refine confirmation_reject db phone text temp ?_
    rcases Bool.or_eq_true_iff.mp hr with h | h
    · exact Or.inl h
    · have h' : (pyLower (text.getD "") = "нет" || pyLower (text.getD "") = "no" ||
          pyLower (text.getD "") = "н" || pyLower (text.getD "") = "да" ||
          pyLower (text.getD "") = "yes" || pyLower (text.getD "") = "д" ||
          pyLower (text.getD "") = "y" : Bool) = false := Bool.not_eq_true' _ ▸ h
      refine Or.inr ⟨fun he => ?_, fun he => ?_, fun he => ?_, fun he => ?_,
        fun he => ?_, fun he => ?_, fun he => ?_⟩ <;> simp [he] at h'
  by_cases h8 : state = "CHANGING_TRUCK"
  · subst h8
    rw [show handlerFor "CHANGING_TRUCK" = some handle_change_truck from rfl] at hfor
    have hh : hdl = handle_change_truck := (Option.some.inj hfor).symm
    subst hh
    rw [show rejects "CHANGING_TRUCK" text =
        (textFalsy text || !(validate_truck (text.getD "")).1) from rfl] at hr
    rw [show rejectReply "CHANGING_TRUCK" text =
        (if textFalsy text then "Введите новый номер машины:"
         else (validate_truck (text.getD "")).2) from rfl]
    refine change_truck_reject db phone text temp ?_
    rcases Bool.or_eq_true_iff.mp hr with h | h
    · exact Or.inl h
    · exact Or.inr ((Bool.not_eq_true' _ ▸ h))
  · unfold handlerFor at hfor
    rw [if_neg h1, if_neg h2, if_neg h3, if_neg h4, if_neg h5, if_neg h6,
      if_neg h7, if_neg h8] at hfor
    exact Option.noConfusion hfor

unseal Rat.mul Rat.add Rat.sub Rat.inv in
theorem invalid_input_idempotent_witness :
    handlerFor "AWAITING_WEIGHT" = some handle_weight_input ∧
    rejects "AWAITING_WEIGHT" (some "-50") = true ∧
    handle_weight_input cDbExit "u1" (some "-50")
        (.parsed [("client_name", .s "Acme")]) =
      .ok (rejectReply "AWAITING_WEIGHT" (some "-50"), cDbExit) :=
  ⟨rfl, by decide,
   invalid_input_idempotent "AWAITING_WEIGHT" cDbExit "u1" (some "-50")
     (.parsed [("client_name", .s "Acme")]) handle_weight_input rfl (by decide)⟩

/-! ## Claim C1: supporting lemmas -/

theorem pick_foldl_mem (l : List WRow) (acc : Option WRow) :
    l.foldl (fun acc r => match acc with
      | none => some r
      | some b => if b.created_at ≤ r.created_at then some r else some b) acc = acc ∨
    ∃ b ∈ l, l.foldl (fun acc r => match acc with
      | none => some r
      | some b => if b.created_at ≤ r.created_at then some r else some b) acc = some b := by
  induction l generalizing acc with
  | nil => exact Or.inl rfl
  | cons a t ih =>
      simp only [List.foldl_cons]
      rcases ih (match acc with
        | none => some a
        | some b => if b.created_at ≤ a.created_at then some a else some b) with h | ⟨b, hb, he⟩
      · rw [h]
        cases acc with
        | none => exact Or.inr ⟨a, by simp, rfl⟩
        | some c =>
            by_cases hc : c.created_at ≤ a.created_at
            · exact Or.inr ⟨a, by simp, by simp [hc]⟩
            · exact Or.inl (by simp [hc])
      · exact Or.inr ⟨b, List.mem_cons_of_mem a hb, he⟩

theorem pickLatest_append_last (l : List WRow) (a : WRow)
    (h : ∀ r ∈ l, r.created_at < a.created_at) :
    pickLatest (l ++ [a]) = some a := by
  unfold pickLatest
  rw [List.foldl_append]
  rcases pick_foldl_mem l none with h0 | ⟨b, hb, he⟩
  · rw [h0]
    rfl
  · rw [he]
    simp [le_of_lt (h b hb)]

theorem tsSorted_pairwise (l : List Nat) (h : tsSorted l = true) :
    l.Pairwise (· < ·) := by
  induction l with
  | nil => simp
  | cons a t ih =>
      cases t with
      | nil => simp
      | cons b u =>
          unfold tsSorted at h
          rw [Bool.and_eq_true] at h
          have hab := of_decide_eq_true h.1
          have ht := ih h.2
          refine List.Pairwise.cons ?_ ht
          intro x hx
          rcases List.mem_cons.mp hx with rfl | hx
          · exact hab
          · exact lt_trans hab (List.rel_of_pairwise_cons ht hx)

/-- `get_last_weight` (the `ORDER BY created_at DESC LIMIT 1` query) returns
the spec's previous weight — the chronologically last prior committed row for
the truck, or 0 — whenever the log's timestamps strictly increase. -/
theorem get_last_weight_eq_specPrev (db : Db) (t : String)
    (h : (db.weighings.map (fun r => r.created_at)).Pairwise (· < ·)) :
    get_last_weight db t = specPrev db t := by
  unfold get_last_weight specPrev
  have h1 : db.weighings.Pairwise (fun a b => a.created_at < b.created_at) :=
    (List.pairwise_map).mp h
  have hp : (db.weighings.filter (fun r => r.truck_number = t)).Pairwise
      (fun a b => a.created_at < b.created_at) :=
    h1.sublist (List.filter_sublist _)
  rcases List.eq_nil_or_concat (db.weighings.filter (fun r => r.truck_number = t)) with
    he | ⟨l, a, he⟩
  · rw [he]
    rfl
  · rw [List.concat_eq_append] at he
    rw [he] at hp ⊢
    rw [pickLatest_append_last l a
        (fun r hr => (List.pairwise_append.mp hp).2.2 r hr a (by simp)),
      List.getLast?_concat]

theorem find?_vehicle_update (l : List Vehicle) (t : String) (w : PyVal) (ts : Nat) :
    ((l.map (fun v => if v.truck_number = t then
        { v with last_weight := w, last_weighing_date := some ts } else v)).find?
      (fun v => v.truck_number = t)) =
    (l.find? (fun v => v.truck_number = t)).map
      (fun v => { v with last_weight := w, last_weighing_date := some ts }) := by
  induction l with
  | nil => rfl
  | cons a m ih =>
      by_cases ha : a.truck_number = t
      · simp only [List.map_cons, if_pos ha]
        rw [List.find?_cons_of_pos _ (by simp [ha]), List.find?_cons_of_pos _ (by simp [ha])]
        rfl
      · simp only [List.map_cons, if_neg ha]
        rw [List.find?_cons_of_neg _ (by simp [ha]), List.find?_cons_of_neg _ (by simp [ha])]
        exact ih

/-! ## Claim C1 -/

/-- C1: `save_weighing` is one atomic step (a single state transformation,
the model of its single SQL transaction) that appends exactly one weighing
row whose `previous_weight` is the `current_weight` of the truck's most
recent prior committed weighing (0 when the truck has none), whose
`weight_difference` is `current_weight − previous_weight`, and that updates
the existing vehicle row's `last_weight` to the new `current_weight`,
touching neither drivers nor sessions.  The hypotheses say the log is
chronologically ordered and the truck's vehicle row exists. -/
theorem save_weighing_inserts_diff_and_updates_vehicle (db : Db) (data : SaveData)
    (hwf : tsSorted (db.weighings.map (fun r => r.created_at)) = true)
    (hveh : (db.vehicles.find? (fun v => v.truck_number = data.truck_number)).isSome = true) :
    (save_weighing db data).1 = some
      { driver_phone := data.driver_phone, truck_number := data.truck_number,
        driver_name := data.driver_name, client_name := data.client_name,
        previous_weight := specPrev db data.truck_number,
        current_weight := data.current_weight,
        weight_difference := data.current_weight.sub (specPrev db data.truck_number),
        station_name := data.station_name, photo_path := data.photo_path,
        created_at := db.now } ∧
    (save_weighing db data).2.weighings = db.weighings ++
      [{ driver_phone := data.driver_phone, truck_number := data.truck_number,
         driver_name := data.driver_name, client_name := data.client_name,
         previous_weight := specPrev db data.truck_number,
         current_weight := data.current_weight,
         weight_difference := data.current_weight.sub (specPrev db data.truck_number),
         station_name := data.station_name, photo_path := data.photo_path,
         created_at := db.now }] ∧
    ((save_weighing db data).2.vehicles.find? (fun v => v.truck_number = data.truck_number)) =
      (db.vehicles.find? (fun v => v.truck_number = data.truck_number)).map
        (fun v => { v with last_weight := data.current_weight,
                           last_weighing_date := some db.now }) ∧
    ((save_weighing db data).2.vehicles.find?
        (fun v => v.truck_number = data.truck_number)).isSome = true ∧
    (save_weighing db data).2.drivers = db.drivers ∧
    (save_weighing db data).2.sessions = db.sessions := by
  have hgl : get_last_weight db data.truck_number = specPrev db data.truck_number :=
    get_last_weight_eq_specPrev db _ (tsSorted_pairwise _ hwf)
  refine ⟨?_, ?_, ?_, ?_, rfl, rfl⟩
  · show some _ = some _
    rw [← hgl]
  · show db.weighings ++ [_] = db.weighings ++ [_]
    rw [← hgl]
  · show (List.find? _ (db.vehicles.map _)) = _
    exact find?_vehicle_update db.vehicles data.truck_number data.current_weight db.now
  · show (List.find? _ (db.vehicles.map _)).isSome = true
    rw [find?_vehicle_update db.vehicles data.truck_number data.current_weight db.now]
    simpa using hveh

unseal Rat.mul Rat.add Rat.sub Rat.inv in
theorem save_weighing_inserts_diff_and_updates_vehicle_witness :
    tsSorted (cDbWeighings.weighings.map (fun r => r.created_at)) = true ∧
    (cDbWeighings.vehicles.find?
        (fun v => v.truck_number = cSaveData.truck_number)).isSome = true ∧
    (save_weighing cDbWeighings cSaveData).1 = some
      { driver_phone := "u1", truck_number := "T-1", driver_name := "Иван Петров",
        client_name := "Acme", previous_weight := .fin 70, current_weight := .fin 100,
        weight_difference := .fin 30, station_name := "", photo_path := "",
        created_at := 3 } := by
  refine ⟨by decide, by decide, ?_⟩
  rw [(save_weighing_inserts_diff_and_updates_vehicle cDbWeighings cSaveData
    (by decide) (by decide)).1]
  decide

/-! ## Claim C8: supporting lemmas -/

theorem strContains_append_mid (a m b : String) : strContains (a ++ (m ++ b)) m = true := by
  unfold strContains
  rw [List.any_eq_true]
  refine ⟨m.data ++ b.data, ?_, ?_⟩
  · rw [List.mem_tails]
    have hd : (a ++ (m ++ b)).data = a.data ++ (m.data ++ b.data) := by
      simp [String.data_append]
    rw [hd]
    exact List.suffix_append _ _
  · exact List.isPrefixOf_iff_prefix.mpr (List.prefix_append _ _)

theorem strContains_append_right (a m : String) : strContains (a ++ m) m = true := by
  unfold strContains
  rw [List.any_eq_true]
  refine ⟨m.data, ?_, ?_⟩
  · rw [List.mem_tails]
    rw [String.data_append]
    exact List.suffix_append _ _
  · exact List.isPrefixOf_iff_prefix.mpr (List.prefix_refl _)

/-! ## Claim C8 -/

/-- C8 counterexample: an unregistered user whose stored session is at the
truck step with a corrupted (empty-string) `temp_data` column sends a valid
truck number.  The handler raises `AttributeError` on the raw string, the
top-level catch converts it into the reply — and the reply contains the raw
internal error text, contradicting the claim that raw internals are never
exposed. -/
theorem internal_error_leaks_detail :
    (process_message cDbCorrupt "u2" (some "ABC") false none).1 =
      "Произошла ошибка: \x27str\x27 object has no attribute \x27get\x27\n\nПожалуйста, попробуйте еще раз или отправьте *0*" ∧
    strContains (process_message cDbCorrupt "u2" (some "ABC") false none).1
      "\x27str\x27 object has no attribute \x27get\x27" = true := by
  exact ⟨rfl, by decide⟩

/-- C8 (amended): whenever the inner processing of a message raises an error
that escapes to the top-level handler, `process_message` catches it and
returns the apologetic reply plus a menu hint — but the reply embeds the
stringified error (`Messages.error_occurred(str(e))`) rather than hiding it;
the database is left as it was at the moment the error was raised.  (A
`KeyError` escaping a state handler of a registered user never reaches this
path: the state-dispatch `except KeyError` catches it, clears the session and
falls back to the menu.) -/
theorem top_level_catch_error_reply (db : Db) (phone : String) (text : Option String)
    (has_media : Bool) (media : Option MediaInfo) (e : PyErr) (db2 : Db)
    (h : pmInner db phone text has_media media = (.error e, db2)) :
    process_message db phone text has_media media =
      ("Произошла ошибка: " ++ pyStr e ++
        "\n\nПожалуйста, попробуйте еще раз или отправьте *0*", db2) ∧
    strContains (process_message db phone text has_media media).1 (pyStr e) = true ∧
    strContains (process_message db phone text has_media media).1 "*0*" = true := by
  have h1 : process_message db phone text has_media media =
      (Messages.error_occurred (pyStr e), db2) := by
    unfold process_message
    rw [h]
  refine ⟨h1, ?_, ?_⟩
  · rw [h1]
    show strContains ("Произошла ошибка: " ++ pyStr e ++
      "\n\nПожалуйста, попробуйте еще раз или отправьте *0*") (pyStr e) = true
    rw [String.append_assoc]
    exact strContains_append_mid _ _ _
  · rw [h1]
    show strContains ("Произошла ошибка: " ++ pyStr e ++
      "\n\nПожалуйста, попробуйте еще раз или отправьте *0*") "*0*" = true
    have hsp : ("\n\nПожалуйста, попробуйте еще раз или отправьте *0*" : String) =
        "\n\nПожалуйста, попробуйте еще раз или отправьте " ++ "*0*" := rfl
    rw [hsp, ← String.append_assoc]
    exact strContains_append_right _ _

theorem top_level_catch_error_reply_witness :
    pmInner cDbCorrupt "u2" (some "ABC") false none =
      (.error (.other "\x27str\x27 object has no attribute \x27get\x27"), cDbCorrupt) ∧
    (process_message cDbCorrupt "u2" (some "ABC") false none =
      ("Произошла ошибка: " ++
        pyStr (.other "\x27str\x27 object has no attribute \x27get\x27") ++
        "\n\nПожалуйста, попробуйте еще раз или отправьте *0*", cDbCorrupt) ∧
     strContains (process_message cDbCorrupt "u2" (some "ABC") false none).1
       (pyStr (.other "\x27str\x27 object has no attribute \x27get\x27")) = true ∧
     strContains (process_message cDbCorrupt "u2" (some "ABC") false none).1 "*0*" = true) :=
  ⟨by decide,
   top_level_catch_error_reply cDbCorrupt "u2" (some "ABC") false none
     (.other "\x27str\x27 object has no attribute \x27get\x27") cDbCorrupt (by decide)⟩

/-! ## Claim C7: supporting lemmas -/

/-- Routing of `process_message` for an unregistered user whose text is not a
global command: the message goes to `handle_unregistered_user`. -/
theorem pm_step_unreg (db : Db) (phone t : String) (hm : Bool) (media : Option MediaInfo)
    (hn : t ≠ "") (he : MenuCommands.is_exit_command t = false) (h3 : t ≠ "3")
    (hu : is_driver_registered db phone = false) :
    process_message db phone (some t) hm media =
      (match handle_unregistered_user db phone (some t) (get_user_state db phone) with
       | .ok (r, db2) => (r, db2)
       | .error e => (Messages.error_occurred (pyStr e), db)) := by
  unfold process_message pmInner
  rw [if_neg (fun hc => absurd hc.2 (by simp [Option.getD, he]))]
  rw [if_neg (by simp [MenuCommands.RE_REGISTER, h3])]
  unfold is_driver_registered at hu
  cases hd : get_driver db phone with
  | none =>
      cases hh : handle_unregistered_user db phone (some t) (get_user_state db phone) with
      | ok p =>
          obtain ⟨r, db2⟩ := p
          simp [hh]
      | error e => simp [hh]
  | some d =>
      rw [hd] at hu
      simp only at hu
      cases hh : handle_unregistered_user db phone (some t) (get_user_state db phone) with
      | ok p =>
          obtain ⟨r, db2⟩ := p
          simp [hu, hh]
      | error e => simp [hu, hh]

/-- Step 1 of the registration track: a valid name input moves the session to
`REGISTRATION_PHONE` with the name stored in the scratch record. -/
theorem pm_unreg_name_step (db : Db) (phone t : String) (td : TD)
    (hu : is_driver_registered db phone = false)
    (hsess : get_user_state db phone =
      some { phone := phone, state := "REGISTRATION_NAME", temp := .parsed td })
    (hn : t ≠ "") (he : MenuCommands.is_exit_command t = false) (h3 : t ≠ "3")
    (hv : (validate_name t).1 = true) :
    process_message db phone (some t) false none =
      (Messages.registration_name_success (validate_name t).2,
       set_user_state db phone "REGISTRATION_PHONE"
         (tdSet td "full_name" (.s (validate_name t).2))) := by
  rw [pm_step_unreg db phone t false none hn he h3 hu, hsess]
  simp only [handle_unregistered_user]
  rw [if_pos trivial]
  unfold handle_registration_name
  have hnf : ¬ (textFalsy (some t) = true) := by
    simp only [textFalsy, decide_eq_true_eq]
    exact hn
  have hvf : ¬ (¬ (validate_name ((some t).getD "")).1 = true) := by
    simp only [Option.getD]
    simp [hv]
  rw [if_neg hnf, if_neg hvf]
  rfl

/-- Step 2 of the registration track: a valid phone input moves the session
to `REGISTRATION_TRUCK` with the phone digits added to the scratch record. -/
theorem pm_unreg_phone_step (db : Db) (phone t : String) (td : TD)
    (hu : is_driver_registered db phone = false)
    (hsess : get_user_state db phone =
      some { phone := phone, state := "REGISTRATION_PHONE", temp := .parsed td })
    (hn : t ≠ "") (he : MenuCommands.is_exit_command t = false) (h3 : t ≠ "3")
    (hv : (validate_phone t).1 = true) :
    process_message db phone (some t) false none =
      (Messages.registration_phone_success,
       set_user_state db phone "REGISTRATION_TRUCK"
         (tdSet td "personal_phone" (.s (validate_phone t).2))) := by
  rw [pm_step_unreg db phone t false none hn he h3 hu, hsess]
  simp only [handle_unregistered_user]
  rw [if_pos trivial]
  unfold handle_registration_phone
  have hnf : ¬ (textFalsy (some t) = true) := by
    simp only [textFalsy, decide_eq_true_eq]
    exact hn
  have hvf : ¬ (¬ (validate_phone ((some t).getD "")).1 = true) := by
    simp only [Option.getD]
    simp [hv]
  rw [if_neg hnf, if_neg hvf]
  rfl

/-- Step 3 of the registration track: a valid truck input registers the
driver with the accumulated scratch fields, ensures the vehicle row, and
clears the session. -/
theorem pm_unreg_truck_step (db : Db) (phone t : String) (td : TD)
    (hu : is_driver_registered db phone = false)
    (hsess : get_user_state db phone =
      some { phone := phone, state := "REGISTRATION_TRUCK", temp := .parsed td })
    (hn : t ≠ "") (he : MenuCommands.is_exit_command t = false) (h3 : t ≠ "3")
    (hv : (validate_truck t).1 = true) :
    process_message db phone (some t) false none =
      (Messages.registration_complete (jvalStr (tdGetD td "full_name" (.s "")))
         (jvalStr (tdGetD td "personal_phone" (.s ""))) (validate_truck t).2,
       clear_user_state
         (register_driver db phone (jvalStr (tdGetD td "full_name" (.s "")))
           (jvalStr (tdGetD td "personal_phone" (.s ""))) (validate_truck t).2) phone) := by
  rw [pm_step_unreg db phone t false none hn he h3 hu, hsess]
  simp only [handle_unregistered_user]
  rw [if_pos trivial]
  unfold handle_registration_truck
  have hnf : ¬ (textFalsy (some t) = true) := by
    simp only [textFalsy, decide_eq_true_eq]
    exact hn
  have hvf : ¬ (¬ (validate_truck ((some t).getD "")).1 = true) := by
    simp only [Option.getD]
    simp [hv]
  rw [if_neg hnf, if_neg hvf]
  rfl

/-- The driver upsert of `register_driver` is found again under its key with
the submitted fields and `is_registered = true`. -/
theorem find?_driver_upsert (l : List Driver) (phone n p t : String) :
    ((if l.any (fun d => d.phone = phone) then
        l.map (fun d => if d.phone = phone then
          { d with full_name := n, personal_phone := p, truck_number := t,
                   is_registered := true } else d)
      else l ++ [{ phone := phone, full_name := n, personal_phone := p,
                   truck_number := t, is_registered := true }]).find?
      (fun d => d.phone = phone)) =
    some { phone := phone, full_name := n, personal_phone := p,
           truck_number := t, is_registered := true } := by
  induction l with
  | nil => simp
  | cons a m ih =>
      by_cases ha : a.phone = phone
      · have hany : (a :: m).any (fun d => d.phone = phone) = true := by simp [ha]
        rw [if_pos hany]
        simp only [List.map_cons, if_pos ha]
        rw [List.find?_cons_of_pos _ (by simp [ha])]
        cases a
        simp only at ha
        subst ha
        rfl
      · by_cases hm : m.any (fun d => d.phone = phone) = true
        · have hany : (a :: m).any (fun d => d.phone = phone) = true := by
            simp [List.any_cons, hm]
          rw [if_pos hany]
          simp only [List.map_cons, if_neg ha]
          rw [List.find?_cons_of_neg _ (by simp [ha])]
          have h2 := ih
          rw [if_pos hm] at h2
          exact h2
        · have hany : ¬ ((a :: m).any (fun d => d.phone = phone) = true) := by
            simp [List.any_cons, ha]
            simpa using hm
          rw [if_neg hany]
          simp only [List.cons_append]
          rw [List.find?_cons_of_neg _ (by simp [ha])]
          have h2 := ih
          rw [if_neg hm] at h2
          exact h2

theorem get_driver_register (db : Db) (phone n p t : String) :
    get_driver (register_driver db phone n p t) phone =
      some { phone := phone, full_name := n, personal_phone := p,
             truck_number := t, is_registered := true } := by
  unfold get_driver register_driver
  exact find?_driver_upsert db.drivers phone n p t

theorem ensureVehicle_any (vs : List Vehicle) (tn : String) :
    (ensureVehicle vs tn).any (fun v => v.truck_number = tn) = true := by
  unfold ensureVehicle
  by_cases h : vs.any (fun v => v.truck_number = tn) = true
  · rw [if_pos h]
    exact h
  · rw [if_neg h]
    simp [List.any_append]

/-! ## Claim C7 -/

/-- C7: completing the registration track with three validator-accepted
inputs (none of which is a global exit or re-register token) leaves a Driver
row with `is_registered = true` and the three normalized submitted fields,
ensures a Vehicle row exists for the submitted truck id, and leaves no
session row for the user. -/
theorem registration_track_completes (db : Db) (phone t1 t2 t3 : String)
    (hu : is_driver_registered db phone = false)
    (hsess : get_user_state db phone =
      some { phone := phone, state := "REGISTRATION_NAME", temp := .parsed [] })
    (hn1 : t1 ≠ "") (he1 : MenuCommands.is_exit_command t1 = false) (h31 : t1 ≠ "3")
    (hv1 : (validate_name t1).1 = true)
    (hn2 : t2 ≠ "") (he2 : MenuCommands.is_exit_command t2 = false) (h32 : t2 ≠ "3")
    (hv2 : (validate_phone t2).1 = true)
    (hn3 : t3 ≠ "") (he3 : MenuCommands.is_exit_command t3 = false) (h33 : t3 ≠ "3")
    (hv3 : (validate_truck t3).1 = true) :
    get_driver (process_message (process_message (process_message db phone (some t1)
        false none).2 phone (some t2) false none).2 phone (some t3) false none).2 phone =
      some { phone := phone, full_name := (validate_name t1).2,
             personal_phone := (validate_phone t2).2,
             truck_number := (validate_truck t3).2, is_registered := true } ∧
    ((process_message (process_message (process_message db phone (some t1)
        false none).2 phone (some t2) false none).2 phone (some t3) false none).2.vehicles.any
      (fun v => v.truck_number = (validate_truck t3).2)) = true ∧
    get_user_state (process_message (process_message (process_message db phone (some t1)
        false none).2 phone (some t2) false none).2 phone (some t3) false none).2 phone
      = none := by
  have step1 := pm_unreg_name_step db phone t1 [] hu hsess hn1 he1 h31 hv1
  have e1 : (process_message db phone (some t1) false none).2 =
      set_user_state db phone "REGISTRATION_PHONE"
        (tdSet [] "full_name" (.s (validate_name t1).2)) := by
    rw [step1]
  have hu1 : is_driver_registered (set_user_state db phone "REGISTRATION_PHONE"
      (tdSet [] "full_name" (.s (validate_name t1).2))) phone = false := hu
  have hsess1 := get_user_state_set db phone "REGISTRATION_PHONE"
    (tdSet [] "full_name" (.s (validate_name t1).2))
  have step2 := pm_unreg_phone_step _ phone t2 _ hu1 hsess1 hn2 he2 h32 hv2
  have e2 : (process_message (set_user_state db phone "REGISTRATION_PHONE"
        (tdSet [] "full_name" (.s (validate_name t1).2))) phone (some t2) false none).2 =
      set_user_state (set_user_state db phone "REGISTRATION_PHONE"
        (tdSet [] "full_name" (.s (validate_name t1).2))) phone "REGISTRATION_TRUCK"
        (tdSet (tdSet [] "full_name" (.s (validate_name t1).2)) "personal_phone"
          (.s (validate_phone t2).2)) := by
    rw [step2]
  have hu2 : is_driver_registered (set_user_state (set_user_state db phone
      "REGISTRATION_PHONE" (tdSet [] "full_name" (.s (validate_name t1).2))) phone
      "REGISTRATION_TRUCK" (tdSet (tdSet [] "full_name" (.s (validate_name t1).2))
        "personal_phone" (.s (validate_phone t2).2))) phone = false := hu
  have hsess2 := get_user_state_set (set_user_state db phone "REGISTRATION_PHONE"
    (tdSet [] "full_name" (.s (validate_name t1).2))) phone "REGISTRATION_TRUCK"
    (tdSet (tdSet [] "full_name" (.s (validate_name t1).2)) "personal_phone"
      (.s (validate_phone t2).2))
  have step3 := pm_unreg_truck_step _ phone t3 _ hu2 hsess2 hn3 he3 h33 hv3
  have hjs1 : jvalStr (tdGetD (tdSet (tdSet [] "full_name" (.s (validate_name t1).2))
      "personal_phone" (.s (validate_phone t2).2)) "full_name" (.s "")) =
      (validate_name t1).2 := rfl
  have hjs2 : jvalStr (tdGetD (tdSet (tdSet [] "full_name" (.s (validate_name t1).2))
      "personal_phone" (.s (validate_phone t2).2)) "personal_phone" (.s "")) =
      (validate_phone t2).2 := rfl
  rw [hjs1, hjs2] at step3
  have e3 : (process_message (set_user_state (set_user_state db phone
      "REGISTRATION_PHONE" (tdSet [] "full_name" (.s (validate_name t1).2))) phone
      "REGISTRATION_TRUCK" (tdSet (tdSet [] "full_name" (.s (validate_name t1).2))
        "personal_phone" (.s (validate_phone t2).2))) phone (some t3) false none).2 =
      clear_user_state (register_driver (set_user_state (set_user_state db phone
        "REGISTRATION_PHONE" (tdSet [] "full_name" (.s (validate_name t1).2))) phone
        "REGISTRATION_TRUCK" (tdSet (tdSet [] "full_name" (.s (validate_name t1).2))
          "personal_phone" (.s (validate_phone t2).2))) phone (validate_name t1).2
        (validate_phone t2).2 (validate_truck t3).2) phone := by
    rw [step3]
  rw [e1, e2, e3]
  refine ⟨?_, ?_, ?_⟩
  · rw [get_driver_clear_user_state]
    exact get_driver_register _ phone _ _ _
  · exact ensureVehicle_any _ _
  · exact get_user_state_clear _ phone

theorem registration_track_completes_witness :
    get_driver (process_message (process_message (process_message cDbRegStart "u3"
        (some "Иван Иванов") false none).2 "u3" (some "+7 912 345 67 89") false none).2
        "u3" (some "в777ор") false none).2 "u3" =
      some { phone := "u3", full_name := "Иван Иванов", personal_phone := "79123456789",
             truck_number := "В777ОР", is_registered := true } ∧
    ((process_message (process_message (process_message cDbRegStart "u3"
        (some "Иван Иванов") false none).2 "u3" (some "+7 912 345 67 89") false none).2
        "u3" (some "в777ор") false none).2.vehicles.any
      (fun v => v.truck_number = "В777ОР")) = true ∧
    get_user_state (process_message (process_message (process_message cDbRegStart "u3"
        (some "Иван Иванов") false none).2 "u3" (some "+7 912 345 67 89") false none).2
        "u3" (some "в777ор") false none).2 "u3" = none :=
  registration_track_completes cDbRegStart "u3" "Иван Иванов" "+7 912 345 67 89" "в777ор"
    (by decide) (by decide)
    (by decide) (by decide) (by decide) (by decide)
    (by decide) (by decide) (by decide) (by decide)
    (by decide) (by decide) (by decide) (by decide)

end TransportBot
